import Mathlib

/-!
Shallow embedding of the core of the kiwi-rs RISC-V64 microkernel
(frame allocator, SV39 page-table walker, trap dispositions, cooperative
executor bookkeeping, thread-loop quantum accounting, syscall
classification and the synchronous IPC layer), together with theorems
settling the specification claims about it.

Machine integers are modelled as `Nat`; an explicit `% 2 ^ 64` is written
exactly where the Rust code performs a wrapping 64-bit operation whose
overflow is reachable.  Values that the Rust type system bounds by
construction (e.g. `Physical ≤ Physical::MAX`) appear as explicit
hypotheses on the theorems that need the bound.
-/

namespace Kiwi

set_option maxRecDepth 100000

/-! ## Resume dispositions (src/kernel/src/arch/generic/trap.rs) -/

/-- Resume disposition returned by the trap handlers. -/
inductive Resume
  | Continue
  | Yield
  | Terminate (code : Int)
  | Fault
deriving DecidableEq, Repr

/-! ## Interrupt handling (src/kernel/src/arch/riscv64/trap.rs, handle_interrupt) -/

/-- Interrupt causes of the riscv crate that `scause.cause()` can report
for an interrupt trap. -/
inductive InterruptCause
  | UserSoft
  | SupervisorSoft
  | UserTimer
  | SupervisorTimer
  | UserExternal
  | SupervisorExternal
  | UnknownCause
deriving DecidableEq, Repr

/-- Embedding of `handle_interrupt`.  The first component is the returned
`Resume` disposition; the second records whether `timer::shutdown()` was
invoked.  The `SupervisorTimer` arm shuts the timer down and yields, the
`SupervisorExternal` arm logs a warning and yields, every other cause logs
a warning and continues. -/
def handle_interrupt (cause : InterruptCause) : Resume × Bool :=
  match cause with
  | .SupervisorTimer => (.Yield, true)
  | .SupervisorExternal => (.Yield, false)
  | _ => (.Continue, false)

/-! ## Thread-loop quantum accounting (src/kernel/src/future/user.rs, thread_loop) -/

/-- `Duration::from_millis(config::THREAD_MAX_RUN_DURATION)` with
`THREAD_MAX_RUN_DURATION = 25`, in nanoseconds. -/
def maxRunNanos : Nat := 25 * 1000000

/-- Thread exit status (`Exit` in src/kernel/src/future/user.rs). -/
inductive Exit
  | Terminate (code : Int)
  | Fault
deriving DecidableEq, Repr

/-- Outcome of one iteration of the `thread_loop` body: either the loop
breaks with an exit status, or it continues with the new remaining
quantum; `yielded` records whether the `Resume::Yield` arm (which awaits
`yield_once`) was taken. -/
inductive LoopStep
  | exit (e : Exit)
  | cont (remaining : Nat) (yielded : Bool)
deriving DecidableEq, Repr

/-- One iteration of the `thread_loop` body.  `remaining` is the quantum
on entry (nanoseconds), `execElapsed` the measured duration of
`arch::thread::execute`, `resume` the disposition produced by the trap
dispatch, and `handleElapsed` the measured duration of the dispatch.
`Duration::saturating_sub` is truncated `Nat` subtraction.  The loop
- subtracts the execution time from the quantum,
- overrides the disposition with `Yield` when the quantum reached zero,
- subtracts the trap-handling time,
- then acts on the disposition: `Terminate`/`Fault` break out of the
  loop, `Yield` resets the quantum to the full `maxRunNanos` before
  awaiting `yield_once`, and `Continue` loops with the reduced quantum.
The poll generation of the executor is never read by this function. -/
def threadLoopStep (remaining execElapsed : Nat) (resume : Resume)
    (handleElapsed : Nat) : LoopStep :=
  let r1 := remaining - execElapsed
  let resume1 := if r1 = 0 then Resume.Yield else resume
  let r2 := r1 - handleElapsed
  match resume1 with
  | .Terminate code => .exit (.Terminate code)
  | .Fault => .exit .Fault
  | .Yield => .cont maxRunNanos true
  | .Continue => .cont r2 false

/-! ## Syscall classification (src/kernel/src/user/syscall/mod.rs) -/

/-- Syscall operations supported by the dispatcher (`SyscallOp`). -/
inductive SyscallOp
  | Nop
  | TaskExit
  | TaskYield
  | ServiceRegister
  | ServiceUnregister
  | ServiceConnect
  | IpcSend
  | IpcReceive
  | IpcReply
  | UnknownOp
deriving DecidableEq, Repr

def u32Max : Nat := 4294967295

def usizeMax : Nat := 18446744073709551615

/-- Embedding of `impl From<usize> for SyscallOp`:
`u32::try_from(value).unwrap_or(u32::MAX)` followed by the match on the
numeric ids 0 through 8, everything else mapping to `Unknown`. -/
def syscallOpFrom (value : Nat) : SyscallOp :=
  match (if value ≤ u32Max then value else u32Max) with
  | 0 => .Nop
  | 1 => .TaskExit
  | 2 => .TaskYield
  | 3 => .ServiceRegister
  | 4 => .ServiceUnregister
  | 5 => .ServiceConnect
  | 6 => .IpcSend
  | 7 => .IpcReceive
  | 8 => .IpcReply
  | _ => .UnknownOp

/-- Interpretation of `args[0] as i32` (two's complement). -/
def natAsI32 (n : Nat) : Int :=
  let m : Nat := n % 2 ^ 32
  if m < 2 ^ 31 then (m : Int) else (m : Int) - 2 ^ 32

/-- The `SyscallReturnValue` record: resume disposition plus the value to
be placed in the return register (`a0`). -/
structure SyscallReturnValue where
  resume : Resume
  value : Nat
deriving DecidableEq, Repr

/-- Embedding of the arms of `handle_syscall` that complete without
calling into the service or IPC submodules: `Nop`, `TaskExit`,
`TaskYield` and the `Unknown` arm (which logs a warning and returns
`usize::MAX` with `Resume::Continue`).  The remaining arms delegate to
`syscall::service` and `syscall::ipc` and are returned as `none` here;
no claim depends on them. -/
def handleSyscallPure (id : Nat) (args : List Nat) : Option SyscallReturnValue :=
  match syscallOpFrom id with
  | .Nop => some ⟨.Continue, 0⟩
  | .TaskExit => some ⟨.Terminate (natAsI32 (args.headD 0)), 0⟩
  | .TaskYield => some ⟨.Yield, 0⟩
  | .UnknownOp => some ⟨.Continue, usizeMax⟩
  | _ => none

/-! ## Physical-to-kernel translation (src/kernel/src/arch/riscv64/mmu.rs) -/

/-- `Physical::MAX`: the largest representable physical address. -/
def PhysicalMax : Nat := 0xFFFFFFFFFFF

/-- `KERNEL_START`: first address of the kernel identity window. -/
def KERNEL_START : Nat := 0xFFFFFFC000000000

/-- `Virtual::<Kernel>::START`: smallest valid kernel virtual address. -/
def KernelVirtStart : Nat := 0xFFFF800000000000

/-- Result of running code that may panic. -/
inductive PanicOr (α : Type)
  | panic
  | ok (a : α)
deriving DecidableEq, Repr

/-- Embedding of `translate_physical`:
`Some(Virtual::<Kernel>::new(usize::from(KERNEL_START) + usize::from(phys)))`.
The usize addition wraps modulo `2 ^ 64` (release semantics; the debug
build panics on the same inputs), and `Virtual::<Kernel>::new` panics
when the result lies below `Virtual::<Kernel>::START`.  The `None`
branch of the return type is never constructed. -/
def translate_physical (phys : Nat) : PanicOr (Option Nat) :=
  let sum := (KERNEL_START + phys) % 2 ^ 64
  if KernelVirtStart ≤ sum then .ok (some sum) else .panic

/-! ## Executor vruntime bookkeeping (src/kernel/src/future/task.rs and executor.rs) -/

/-- Embedding of the vruntime update in `Task::poll`:
`self.vruntime += elapsed.as_nanos() as u64`, a wrapping u64 addition. -/
def pollVruntimeUpdate (vruntime elapsedNanos : Nat) : Nat :=
  (vruntime + elapsedNanos) % 2 ^ 64

/-- Embedding of the `while ready_queue.contains_key(&vruntime)`
increment loop of `process_ready_ids`.  The keys of the `BTreeMap` are
pairwise distinct, so erasing the occurrence that was found leaves the
membership of every strictly larger value unchanged and this structural
recursion computes the same value as the source loop. -/
def bumpVruntime (keys : List Nat) (v : Nat) : Nat :=
  if h : v ∈ keys then bumpVruntime (keys.erase v) (v + 1) else v
termination_by keys.length
decreasing_by
  have h1 := List.length_erase_of_mem h
  have h2 := List.length_pos_of_mem h
  omega

/-- Embedding of the re-enqueue path of `process_ready_ids` for one task:
`let mut vruntime = task.vruntime().max(lowest_vruntime)` followed by the
duplicate-key increment loop; the result is stored back with
`task.set_vruntime(vruntime)`. -/
def requeueVruntime (taskVruntime lowestVruntime : Nat) (keys : List Nat) : Nat :=
  bumpVruntime keys (max taskVruntime lowestVruntime)


/-! ## Frame allocator (src/kernel/src/pmm.rs)

The frame directory is modelled as a total function from frame index to
`FrameFlags` together with the directory length (`frame_count`); indices
at or beyond the length are never consulted by the claims.  Memory
contents (the zeroing performed under `AllocationFlags::ZEROED`) are not
modelled, since every claim is about the directory flags. -/

def PAGE_SIZE : Nat := 4096

/-- The per-frame flag bits of `FrameFlags` (FREE, KERNEL, FIRMWARE). -/
structure FrameFlags where
  free : Bool
  kernel : Bool
  firmware : Bool
deriving DecidableEq, Repr

/-- The `AllocationFlags` bits (KERNEL, ZEROED). -/
structure AllocationFlags where
  kernel : Bool
  zeroed : Bool
deriving DecidableEq, Repr

/-- `phys2index`: `(addr - RAM_START.read()) / PAGE_SIZE`.  The source
asserts `RAM_START ≤ addr ≤ RAM_END`; callers below check or satisfy
these bounds. -/
def phys2index (ramStart addr : Nat) : Nat :=
  (addr - ramStart) / PAGE_SIZE

/-- `index2phys`: `RAM_START.read() + index * PAGE_SIZE`. -/
def index2phys (ramStart index : Nat) : Nat :=
  ramStart + index * PAGE_SIZE

/-- `Physical::page_align_up`: `(addr + PAGE_SIZE - 1) & !(PAGE_SIZE - 1)`,
written in divide-multiply form (equal for all inputs below `2 ^ 64`). -/
def pageAlignUp (addr : Nat) : Nat :=
  (addr + PAGE_SIZE - 1) / PAGE_SIZE * PAGE_SIZE

/-- A free memory region of the boot memory map
(`arch::memory::Region`). -/
structure Region where
  start : Nat
  length : Nat
deriving DecidableEq, Repr

/-- `Region::end()`: `start + length`. -/
def Region.endAddr (r : Region) : Nat := r.start + r.length

/-- Helper embedding the `for_each` loops of pmm.rs: apply the record
update `f` to the directory entry at index `g (s + k)` for `k` from `0`
to `n - 1`, in increasing order. -/
def markFold (g : Nat → Nat) (f : FrameFlags → FrameFlags)
    (bm : Nat → FrameFlags) (s : Nat) : Nat → (Nat → FrameFlags)
  | 0 => bm
  | n + 1 =>
      let bm1 := markFold g f bm s n
      fun i => if i = g (s + n) then f (bm1 i) else bm1 i

/-- The free-region loop body:
`flags &= !FrameFlags::KERNEL; flags |= FrameFlags::FREE`. -/
def markFree (f : FrameFlags) : FrameFlags :=
  { f with kernel := false, free := true }

/-- The firmware loop body:
`flags &= !FrameFlags::KERNEL; flags |= FrameFlags::FIRMWARE`. -/
def markFirmware (f : FrameFlags) : FrameFlags :=
  { f with kernel := false, firmware := true }

/-- The allocation loop body: `flags.remove(FrameFlags::FREE)` followed by
`flags |= FrameFlags::KERNEL` when `AllocationFlags::KERNEL` was
requested. -/
def allocMark (kernelRequested : Bool) (f : FrameFlags) : FrameFlags :=
  if kernelRequested then { f with free := false, kernel := true }
  else { f with free := false }

/-- The deallocation loop body: `flags.remove(FrameFlags::KERNEL)`
followed by `flags.insert(FrameFlags::FREE)`. -/
def deallocMark (f : FrameFlags) : FrameFlags :=
  { f with kernel := false, free := true }

/-- Marking one free region: indices from
`phys2index(page_align_up(region.start))` to
`phys2index(page_align_up(region.end()))` (exclusive) get `markFree`. -/
def markRegionFree (ramStart : Nat) (bm : Nat → FrameFlags) (r : Region) :
    Nat → FrameFlags :=
  let s := phys2index ramStart (pageAlignUp r.start)
  let e := phys2index ramStart (pageAlignUp r.endAddr)
  markFold id markFree bm s (e - s)

/-- State of the physical memory manager after `setup`. -/
structure PmmState where
  ramStart : Nat
  ramEnd : Nat
  frameCount : Nat
  bitmap : Nat → FrameFlags

/-- Embedding of `pmm::setup` from the point where the directory buffer
has been obtained (the claim sources, pmm.rs lines 85-128): every entry
is initialised to `FrameFlags::KERNEL`, every page of every free region
is marked `markFree`, and every byte address in the firmware window
`0x80000000..0x80200000` marks its page `markFirmware`.
`frame_count = ram_size().page_count_up()` with
`ram_size() = ram_end - ram_start`. -/
def pmmSetup (ramStart ramEnd : Nat) (regions : List Region) : PmmState :=
  let frameCount := (ramEnd - ramStart + PAGE_SIZE - 1) / PAGE_SIZE
  let bm0 : Nat → FrameFlags := fun _ => ⟨false, true, false⟩
  let bm1 := regions.foldl (markRegionFree ramStart) bm0
  let bm2 := markFold (fun a => phys2index ramStart a) markFirmware bm1
    0x80000000 0x200000
  { ramStart := ramStart, ramEnd := ramEnd, frameCount := frameCount,
    bitmap := bm2 }

/-- `frames.iter().all(|info| info.flags.contains(FrameFlags::FREE))` on
the window starting at `start`. -/
def allFree (bm : Nat → FrameFlags) (start count : Nat) : Bool :=
  (List.range count).all fun k => (bm (start + k)).free

/-- The scan underlying `bitmap.windows(count).position(..)`: try the
candidate start positions in increasing order. -/
def findRunFrom (bm : Nat → FrameFlags) (count : Nat) :
    Nat → Nat → Option Nat
  | _, 0 => none
  | start, fuel + 1 =>
      if allFree bm start count then some start
      else findRunFrom bm count (start + 1) fuel

/-- `bitmap.windows(count).position(..)`: the candidate starts are
`0 ..= len - count` (none when `count > len`); `count = 0` panics in the
source and is never used. -/
def findRun (bm : Nat → FrameFlags) (len count : Nat) : Option Nat :=
  findRunFrom bm count 0 (len + 1 - count)

/-- Embedding of `pmm::allocate_range`: first-fit scan for `count`
consecutive FREE entries, then clear FREE (adding KERNEL when requested)
over the run; returns `index2phys(start)`.  The ZEROED flag only writes
memory contents, which are not modelled. -/
def allocate_range (s : PmmState) (count : Nat) (flags : AllocationFlags) :
    Option (Nat × PmmState) :=
  match findRun s.bitmap s.frameCount count with
  | none => none
  | some start =>
      let bm1 := markFold id (allocMark flags.kernel) s.bitmap start count
      some (index2phys s.ramStart start, { s with bitmap := bm1 })

/-- `pmm::allocate_frame(flags) = allocate_range(1, flags)`. -/
def allocate_frame (s : PmmState) (flags : AllocationFlags) :
    Option (Nat × PmmState) :=
  allocate_range s 1 flags

/-- Embedding of `pmm::deallocate_range`.  The source asserts (in order)
that the base is page aligned, that the range does not overflow, that it
lies inside the directory, and for each entry that FREE is not set; a
failed assertion panics, modelled as `none`.  The per-entry assertion is
checked up front, which is equivalent because each loop iteration only
mutates the entry it just checked.  `phys2index` itself asserts
`ram_start ≤ base ≤ ram_end`. -/
def deallocate_range (s : PmmState) (base count : Nat) : Option PmmState :=
  let start := phys2index s.ramStart base
  if s.ramStart ≤ base ∧ base ≤ s.ramEnd ∧ base % PAGE_SIZE = 0 ∧
      start + count ≤ s.frameCount ∧
      ((List.range count).all fun k => !(s.bitmap (start + k)).free) then
    some { s with bitmap := markFold id deallocMark s.bitmap start count }
  else
    none

/-- `pmm::deallocate_frame(frame) = deallocate_range(frame, 1)`. -/
def deallocate_frame (s : PmmState) (base : Nat) : Option PmmState :=
  deallocate_range s base 1

/-- Exactly one of the three flag bits {FREE, KERNEL, FIRMWARE} is set. -/
def exactlyOneFlag (f : FrameFlags) : Bool :=
  (f.free && !f.kernel && !f.firmware) ||
    (!f.free && f.kernel && !f.firmware) ||
    (!f.free && !f.kernel && f.firmware)

/-- FREE and KERNEL are not both set (the weaker invariant that the
allocator operations actually preserve). -/
def freeKernelExclusive (f : FrameFlags) : Bool :=
  !(f.free && f.kernel)

/-! ### The C1 concrete boot instance

RAM covers physical `0x80000000 ..< 0x80201000` (513 pages); the boot
memory map reports a single free region of one page at `0x80200000`
(real maps start their free regions at `kernel_physical_end`, above the
2 MiB firmware window, see arch/riscv64/memory.rs). -/

def c1State0 : PmmState :=
  pmmSetup 0x80000000 0x80201000 [⟨0x80200000, 0x1000⟩]

/-- Closed form of the `c1State0` frame directory: pages 0-511 are the
firmware window, page 512 is the free page, everything else (outside the
directory) keeps the KERNEL initialisation. -/
def c1ExplicitBitmap : Nat → FrameFlags := fun i =>
  if i < 512 then ⟨false, false, true⟩
  else if i = 512 then ⟨true, false, false⟩
  else ⟨false, true, false⟩

/-- A four-record directory whose records are all Free, used to exercise
the allocator paths on a small concrete state. -/
def c1TestState : PmmState := ⟨0, 16384, 4, fun _ => ⟨true, false, false⟩⟩

/-- The state obtained from `c1TestState` by allocating one frame without
the KERNEL flag. -/
def c1TestAlloc : PmmState :=
  { c1TestState with
    bitmap := markFold id (allocMark false) c1TestState.bitmap 0 1 }


/-! ## IPC layer (src/kernel/src/ipc/message.rs, src/kernel/src/future/task.rs)

The executor is single-threaded and cooperative, so the code between two
`.await` points of an async function runs atomically with respect to
every other task.  Each IPC operation is therefore embedded as its
await-delimited sections: a section is a function from configuration to
(outcome, configuration), and a schedule is an explicit sequence of
section applications.  The wait queues hold only wakers; which task runs
next is a scheduling choice, modelled here by the order in which the
sections are applied, so the queues themselves carry no modelled state
(queue poisoning happens together with removal from the task map, which
the model tracks through the task list).  Both inbound slots are written
with `Option::replace`; the embedding surfaces the replaced value that
the source discards. -/

abbrev TaskId := Nat

def MAX_PAYLOAD_SIZE : Nat := 256

/-- The `Message` record. `payload` models the `[u8; 256]` array. -/
structure Message where
  sender : TaskId
  receiver : TaskId
  operation : Nat
  payload_len : Nat
  payload : List Nat
deriving DecidableEq, Repr

/-- The payload buffer construction in `send` and `reply`:
`let mut buf = [0; 256]; buf[..payload.len()].copy_from_slice(payload)`. -/
def mkPayloadBuf (payload : List Nat) : List Nat :=
  payload ++ List.replicate (MAX_PAYLOAD_SIZE - payload.length) 0

/-- `IpcWaitingState`. -/
inductive IpcWaitingState
  | NoWait
  | WaitingForSend
  | WaitingForMessage
  | WaitingForReply (fromTask : TaskId)
deriving DecidableEq, Repr

/-- `SendError`. -/
inductive SendError
  | PayloadTooLarge
  | TaskDoesNotExist
  | TaskDestroyed
deriving DecidableEq, Repr

/-- `ReplyError`. -/
inductive ReplyError
  | PayloadTooLarge
  | NotWaitingForReply
  | UnexpectedSender
  | TaskDoesNotExist
  | TaskDestroyed
deriving DecidableEq, Repr

/-- The slots and waiting state of `LocalDataSet` (the three wait queues
carry wakers only, see the section comment). -/
structure LocalDataSet where
  ipc_message : Option Message
  ipc_reply : Option Message
  ipc_waiting_state : IpcWaitingState
deriving DecidableEq, Repr

/-- `LocalDataSet::default()`. -/
def LocalDataSet.init : LocalDataSet := ⟨none, none, .NoWait⟩

/-- The IPC-relevant global state: the keys of `TASK_LOCAL_DATA_MAP`
(task existence) and each task's local data set. -/
structure IpcConfig where
  tasks : List TaskId
  locals : TaskId → LocalDataSet

/-- Replace one task's local data set. -/
def setLocal (c : IpcConfig) (id : TaskId) (l : LocalDataSet) : IpcConfig :=
  { c with locals := fun t => if t = id then l else c.locals t }

/-- Outcome of the first await-delimited section of `send` (validation
plus one iteration of the delivery loop). -/
inductive SendStartResult
  | failed (e : SendError)
  | deposited (replacedSlot : Option Message)
  | blockedOnSendQueue
deriving DecidableEq, Repr

/-- One iteration of the delivery loop of `send`: peek the receiver's
waiting state under its lock; if the receiver vanished fail with
`TaskDestroyed`; if it is in `WaitingForMessage`, re-enter its local set
and deposit the message with `Option::replace` (the replaced value,
which the source discards, is surfaced in the outcome) and wake one
waiter of its receive queue; otherwise set our own state to
`WaitingForSend` and block on the receiver's send queue
(`wait(queue).await` ends the atomic section; on wake-up the loop body
runs again). -/
def sendLoopBody (c : IpcConfig) (sender dest : TaskId) (message : Message) :
    SendStartResult × IpcConfig :=
  if dest ∈ c.tasks then
    match (c.locals dest).ipc_waiting_state with
    | .WaitingForMessage =>
        (.deposited (c.locals dest).ipc_message,
          setLocal c dest { c.locals dest with ipc_message := some message })
    | _ =>
        (.blockedOnSendQueue,
          setLocal c sender
            { c.locals sender with ipc_waiting_state := .WaitingForSend })
  else
    (.failed .TaskDestroyed, c)

/-- The first await-delimited section of `send`: validate the payload
length (≤ 256) and the existence of the receiver, build the message
stamped with the sender id, then run the first delivery-loop
iteration.  Both failure returns happen before any await. -/
def sendStart (c : IpcConfig) (sender dest : TaskId) (operation : Nat)
    (payload : List Nat) : SendStartResult × IpcConfig :=
  if payload.length > MAX_PAYLOAD_SIZE then
    (.failed .PayloadTooLarge, c)
  else if dest ∉ c.tasks then
    (.failed .TaskDoesNotExist, c)
  else
    sendLoopBody c sender dest
      ⟨sender, dest, operation, payload.length, mkPayloadBuf payload⟩

/-- Outcome of one iteration of the reply-wait loop of `send`. -/
inductive SendReplyResult
  | gotReply (r : Message)
  | failed (e : SendError)
  | blockedOnReplyQueue
deriving DecidableEq, Repr

/-- One iteration of the reply-wait loop of `send` (after the message was
delivered): take our inbound-reply slot; if present return it; if the
receiver no longer exists fail with `TaskDestroyed`; otherwise record
`WaitingForReply(dest)` and block on the receiver's reply queue. -/
def sendReplyLoopBody (c : IpcConfig) (sender dest : TaskId) :
    SendReplyResult × IpcConfig :=
  match (c.locals sender).ipc_reply with
  | some r =>
      (.gotReply r, setLocal c sender { c.locals sender with ipc_reply := none })
  | none =>
      if dest ∈ c.tasks then
        (.blockedOnReplyQueue,
          setLocal c sender
            { c.locals sender with ipc_waiting_state := .WaitingForReply dest })
      else
        (.failed .TaskDestroyed, c)

/-- Outcome of one iteration of the `receive` loop. -/
inductive ReceiveResult
  | gotMessage (m : Message)
  | blockedOnReceiveQueue
deriving DecidableEq, Repr

/-- One iteration of the `receive` loop: take the inbound-message slot;
if present return the message (the waiting state is left as it was);
otherwise set `WaitingForMessage`, wake all waiting senders, and block
on our receive queue. -/
def receiveLoopBody (c : IpcConfig) (receiver : TaskId) :
    ReceiveResult × IpcConfig :=
  match (c.locals receiver).ipc_message with
  | some m =>
      (.gotMessage m,
        setLocal c receiver { c.locals receiver with ipc_message := none })
  | none =>
      (.blockedOnReceiveQueue,
        setLocal c receiver
          { c.locals receiver with ipc_waiting_state := .WaitingForMessage })

/-- Outcome of `reply`: the error (or none on success) and, when a
deposit happened, the value the `Option::replace` displaced. -/
structure ReplyOutcome where
  result : Option ReplyError
  replacedSlot : Option (Option Message)
deriving DecidableEq, Repr

/-- Embedding of `reply` (synchronous, no await): validate payload and
receiver existence, require the receiver to be in
`WaitingForReply(sender)`, then deposit the reply into the receiver's
inbound-reply slot with `Option::replace` and wake all waiters of our
own reply queue. -/
def ipcReply (c : IpcConfig) (sender dest : TaskId) (status : Nat)
    (payload : List Nat) : ReplyOutcome × IpcConfig :=
  if payload.length > MAX_PAYLOAD_SIZE then
    (⟨some .PayloadTooLarge, none⟩, c)
  else if dest ∉ c.tasks then
    (⟨some .TaskDoesNotExist, none⟩, c)
  else
    let message : Message := ⟨sender, dest, status, payload.length, mkPayloadBuf payload⟩
    match (c.locals dest).ipc_waiting_state with
    | .WaitingForReply expected =>
        if expected = sender then
          (⟨none, some (c.locals dest).ipc_reply⟩,
            setLocal c dest { c.locals dest with ipc_reply := some message })
        else
          (⟨some .UnexpectedSender, none⟩, c)
    | _ => (⟨some .NotWaitingForReply, none⟩, c)

/-! ### The C2 schedule

Three tasks: task 0 runs `receive`, tasks 1 and 2 each run `send(0, ..)`.
The executor polls task 0 (which blocks in `WaitingForMessage`), then
task 1 (which deposits its message and blocks waiting for the reply),
then task 2 (which still observes task 0 in `WaitingForMessage`, since
`receive` only leaves that state when the receiver itself is polled
again, and deposits over the slot).  This order is realisable: all three
tasks are spawned ready, and after task 1 wakes task 0 the executor
re-enqueues task 0 with its accumulated vruntime, which can exceed the
key of the still-queued task 2. -/

def c2Config0 : IpcConfig := ⟨[0, 1, 2], fun _ => LocalDataSet.init⟩

def c2Config1 : IpcConfig := (receiveLoopBody c2Config0 0).2

def c2Step2 : SendStartResult × IpcConfig := sendStart c2Config1 1 0 42 [1, 2, 3]

def c2Config3 : IpcConfig := (sendReplyLoopBody c2Step2.2 1 0).2

def c2Step4 : SendStartResult × IpcConfig := sendStart c2Config3 2 0 7 [9]

/-! ## SV39 page-table walker (src/kernel/src/arch/riscv64/mmu.rs)

A page-table entry is a u64, modelled as a `Nat` kept below `2 ^ 64` by
the bounds the theorems assume on frame addresses
(`Physical ≤ Physical::MAX = 2 ^ 44 - 1`).  The flag helpers below are
the arithmetic form of the source bit operations; each doc comment gives
the source expression.  A table is its 512 entries; the intermediate
tables reached through `translate_physical` are an association list
keyed by the physical address of their frame.  The frame allocator is
a list of the frames it will hand out (`allocate_frame` pops the head,
an empty list is allocation failure); the frames handed out are zeroed
because `map` requests `AllocationFlags::ZEROED`.  `sfence_vma`
invocations are recorded in `flushes`. -/

/-- Test a flag bit, `self.0 & b != 0` for `b` a power of two. -/
def getBit (e b : Nat) : Bool := e / b % 2 = 1

/-- Set one flag bit (`self.0 |= b`) or clear it (`self.0 &= !b`). -/
def setBit (e b : Nat) (v : Bool) : Nat :=
  if v then (if getBit e b then e else e + b)
  else (if getBit e b then e - b else e)

/-- `Entry::present`: bit 0. -/
def entry_present (e : Nat) : Bool := getBit e 1

/-- `Entry::is_leaf`: `readable | writable | executable` (bits 1-3). -/
def entry_is_leaf (e : Nat) : Bool := getBit e 2 || getBit e 4 || getBit e 8

/-- `Entry::address`: `(self.0 & !0x3FF) << 2` — clear the low ten bits
and shift left by two, i.e. `e / 1024 * 4096`. -/
def entry_address (e : Nat) : Nat := e / 1024 * 4096

/-- `Entry::set_address`: `self.0 &= 0x3FF; self.0 |= (frame & !0xFFF) >> 2`.
The kept low ten bits and the inserted address field occupy disjoint bit
ranges, so the OR is an addition. -/
def entry_set_address (e frame : Nat) : Nat :=
  e % 1024 + frame / 4096 * 1024

/-- The `Rights` bits (arch/generic/mmu.rs): USER, READ, WRITE, EXECUTE. -/
structure Rights where
  user : Bool
  read : Bool
  write : Bool
  execute : Bool
deriving DecidableEq, Repr

/-- The `Flags` bits (arch/generic/mmu.rs): GLOBAL. -/
structure Flags where
  global : Bool
deriving DecidableEq, Repr

/-- `Entry::set_rights`: `set_user`, `set_readable`, `set_writable`,
`set_executable` — each sets or clears its entry bit (U = bit 4,
R = bit 1, W = bit 2, X = bit 3). -/
def entry_set_rights (e : Nat) (r : Rights) : Nat :=
  setBit (setBit (setBit (setBit e 16 r.user) 2 r.read) 4 r.write) 8 r.execute

/-- `Entry::set_flags`: `set_global` (G = bit 5). -/
def entry_set_flags (e : Nat) (f : Flags) : Nat := setBit e 32 f.global

/-- `Entry::set_present(true)` (bit 0). -/
def entry_set_present (e : Nat) : Nat := setBit e 1 true

/-- A page table: 512 entries (`Table([Entry; 512])`). -/
abbrev Table := List Nat

/-- `Table::empty()`: all entries missing (zero). -/
def Table.empty : Table := List.replicate 512 0

/-- The intermediate tables, keyed by the physical address of their
frame. -/
abbrev TableMem := List (Nat × Table)

/-- Dereference a table frame (the `next_table_mut` translation). -/
def memLookup (m : TableMem) (k : Nat) : Option Table :=
  match m with
  | [] => none
  | (k1, t) :: rest => if k1 = k then some t else memLookup rest k

/-- Write back a table (in-place mutation through `next_table_mut`). -/
def memSet (m : TableMem) (k : Nat) (t : Table) : TableMem :=
  match m with
  | [] => []
  | (k1, t1) :: rest =>
      if k1 = k then (k1, t) :: rest else (k1, t1) :: memSet rest k t

/-- Modelled from the spec: `Virtual::vpn_sv39` is declared on the
virtual-address types, whose defining file is not among the sources (only
its call sites in mmu.rs are); spec §4.C step 1 and the SV39 layout of §6
(4 KiB pages, three levels of 512-entry tables) fix the three indices as
bits 30-38, 21-29 and 12-20 of the virtual address.  The walker indexes
the root table with `vpn[0]`, so the triple is ordered top level first. -/
def vpn_sv39 (v : Nat) : Nat × Nat × Nat :=
  (v / 2 ^ 30 % 512, v / 2 ^ 21 % 512, v / 2 ^ 12 % 512)

/-- `MapError` (arch/generic/mmu.rs); `map` only produces
`AlreadyMapped` and `OutOfMemory`. -/
inductive MapError
  | InvalidFlagsCombination
  | FrameNotAligned
  | AlreadyMapped
  | OutOfMemory
deriving DecidableEq, Repr

/-- `UnmapError` as used by the riscv64 walker. -/
inductive UnmapError
  | NotMapped
  | UnsupportedFrameSize
deriving DecidableEq, Repr

/-- State threaded through `map`/`unmap`: the root table entries
(`root.address_space_mut()`), the intermediate tables, the allocator
pool and the recorded TLB flushes. -/
structure PTState where
  root : Table
  mem : TableMem
  pool : List Nat
  flushes : List Nat
deriving DecidableEq, Repr

/-- Outcome of `map`.  The state is returned alongside in all cases
because the source mutates in place: on `OutOfMemory` the intermediate
tables installed so far remain installed.  `corrupt` marks a walk that
dereferences a present non-leaf entry whose frame is not a known table
(undefined behaviour in the source). -/
inductive MapOutcome
  | ok
  | err (e : MapError)
  | corrupt
deriving DecidableEq, Repr

/-- The position of the entry the `map` walk currently points at: an
index of the root table, or an index of the table at a given frame. -/
inductive Loc
  | rootIdx (i : Nat)
  | tableIdx (k i : Nat)
deriving DecidableEq, Repr

/-- Read the entry at a location (missing tables give `none`). -/
def readEntry (s : PTState) : Loc → Option Nat
  | .rootIdx i => some (s.root.getD i 0)
  | .tableIdx k i => (memLookup s.mem k).map fun t => t.getD i 0

/-- Write the entry at a location. -/
def writeEntry (s : PTState) : Loc → Nat → PTState
  | .rootIdx i, e => { s with root := s.root.set i e }
  | .tableIdx k i, e =>
      match memLookup s.mem k with
      | some t => { s with mem := memSet s.mem k (t.set i e) }
      | none => s

/-- Result of one iteration of the `for i in 1..3` walk of `map`. -/
inductive WalkStep
  | stop (s : PTState) (out : MapOutcome)
  | next (s : PTState) (loc : Loc)

/-- One iteration of the `map` walk at the current entry: a leaf entry
reports `AlreadyMapped`; a missing entry allocates a zeroed frame
(failure reports `OutOfMemory`), sets the entry address and present bit;
then the walk descends through `next_table_mut` into the entry at
`nextIdx` of the pointed-to table. -/
def mapWalkStep (s : PTState) (loc : Loc) (nextIdx : Nat) : WalkStep :=
  match readEntry s loc with
  | none => .stop s .corrupt
  | some e =>
      if entry_is_leaf e then .stop s (.err .AlreadyMapped)
      else if entry_present e then
        .next s (.tableIdx (entry_address e) nextIdx)
      else
        match s.pool with
        | [] => .stop s (.err .OutOfMemory)
        | fr :: rest =>
            let e1 := entry_set_present (entry_set_address e fr)
            let s1 := writeEntry
              { s with mem := (fr, Table.empty) :: s.mem, pool := rest } loc e1
            .next s1 (.tableIdx fr nextIdx)

/-- The value written into the level-0 entry on success:
`set_address(frame); set_rights(rights); set_flags(flags); set_present(true)`. -/
def mapLeafEntry (e0 frame : Nat) (r : Rights) (fl : Flags) : Nat :=
  entry_set_present (entry_set_flags (entry_set_rights
    (entry_set_address e0 frame) r) fl)

/-- Embedding of `map`: extract the SV39 indices, run the walk for the
level-2 and level-1 entries, then write the level-0 entry unless it is
already present.  No TLB flush is performed on any path. -/
def mapSv39 (s : PTState) (v frame : Nat) (r : Rights) (fl : Flags) :
    PTState × MapOutcome :=
  let vpn := vpn_sv39 v
  match mapWalkStep s (.rootIdx vpn.1) vpn.2.1 with
  | .stop s1 out => (s1, out)
  | .next s1 loc1 =>
      match mapWalkStep s1 loc1 vpn.2.2 with
      | .stop s2 out => (s2, out)
      | .next s2 loc0 =>
          match readEntry s2 loc0 with
          | none => (s2, .corrupt)
          | some e0 =>
              if entry_present e0 then (s2, .err .AlreadyMapped)
              else (writeEntry s2 loc0 (mapLeafEntry e0 frame r fl), .ok)

/-- Outcome of `unmap`.  `panicked` models the
`assert!(entry.is_leaf())` on the level-0 entry. -/
inductive UnmapOutcome
  | ok (frame : Nat)
  | err (e : UnmapError)
  | panicked
  | corrupt
deriving DecidableEq, Repr

/-- Embedding of `unmap`: walk the level-2 and level-1 entries (a leaf
is `UnsupportedFrameSize`, a missing entry `NotMapped`), assert the
level-0 entry is a leaf, require it present, then clear it
(`address_and_clear`), record the `sfence_vma(0, virt)` flush and return
the frame address. -/
def unmapSv39 (s : PTState) (v : Nat) : PTState × UnmapOutcome :=
  let vpn := vpn_sv39 v
  let e2 := s.root.getD vpn.1 0
  if entry_is_leaf e2 then (s, .err .UnsupportedFrameSize)
  else if !entry_present e2 then (s, .err .NotMapped)
  else
    match memLookup s.mem (entry_address e2) with
    | none => (s, .corrupt)
    | some t1 =>
        let e1 := t1.getD vpn.2.1 0
        if entry_is_leaf e1 then (s, .err .UnsupportedFrameSize)
        else if !entry_present e1 then (s, .err .NotMapped)
        else
          match memLookup s.mem (entry_address e1) with
          | none => (s, .corrupt)
          | some t0 =>
              let e0 := t0.getD vpn.2.2 0
              if !entry_is_leaf e0 then (s, .panicked)
              else if !entry_present e0 then (s, .err .NotMapped)
              else
                ({ s with
                    mem := memSet s.mem (entry_address e1) (t0.set vpn.2.2 0),
                    flushes := v :: s.flushes },
                  .ok (entry_address e0))

/-- The walk condition of the claims, computed on the initial state: the
levels the `map` walk visits hold no leaf, and the level-0 entry (when
its table exists) is missing — identically zero, the value
`Entry::missing()` writes. -/
def walkClearCond (s : PTState) (v : Nat) : Bool :=
  let vpn := vpn_sv39 v
  let e2 := s.root.getD vpn.1 0
  if entry_is_leaf e2 then false
  else if !entry_present e2 then true
  else
    match memLookup s.mem (entry_address e2) with
    | none => false
    | some t1 =>
        let e1 := t1.getD vpn.2.1 0
        if entry_is_leaf e1 then false
        else if !entry_present e1 then true
        else
          match memLookup s.mem (entry_address e1) with
          | none => false
          | some t0 => t0.getD vpn.2.2 0 = 0

/-- The `AlreadyMapped` condition of claim C4, computed on the initial
state: the walk meets a leaf at level 2 or level 1, or the level-0
entry is present (which requires both intermediate levels to
pre-exist: freshly installed tables are zeroed). -/
def alreadyMappedCond (s : PTState) (v : Nat) : Bool :=
  let vpn := vpn_sv39 v
  let e2 := s.root.getD vpn.1 0
  entry_is_leaf e2 ||
    (entry_present e2 &&
      match memLookup s.mem (entry_address e2) with
      | none => false
      | some t1 =>
          let e1 := t1.getD vpn.2.1 0
          entry_is_leaf e1 ||
            (entry_present e1 &&
              match memLookup s.mem (entry_address e1) with
              | none => false
              | some t0 => entry_present (t0.getD vpn.2.2 0)))

/-- The `OutOfMemory` condition of claim C4, computed on the initial
state: an intermediate table is missing at the point where the allocator
pool runs dry — at level 2 with an empty pool, at level 1 below a fresh
level-2 table with only one pooled frame, or at level 1 below a
pre-existing level-2 table with an empty pool. -/
def oomCond (s : PTState) (v : Nat) : Bool :=
  let vpn := vpn_sv39 v
  let e2 := s.root.getD vpn.1 0
  !entry_is_leaf e2 &&
    (if entry_present e2 then
      match memLookup s.mem (entry_address e2) with
      | none => false
      | some t1 =>
          let e1 := t1.getD vpn.2.1 0
          !entry_is_leaf e1 && !entry_present e1 && s.pool.length = 0
    else
      s.pool.length = 0 || s.pool.length = 1)

/-- Both dereferences the walk may perform on pre-existing tables
succeed (present non-leaf entries point to known tables). -/
def pathOk (s : PTState) (v : Nat) : Bool :=
  let vpn := vpn_sv39 v
  let e2 := s.root.getD vpn.1 0
  if entry_present e2 && !entry_is_leaf e2 then
    match memLookup s.mem (entry_address e2) with
    | none => false
    | some t1 =>
        let e1 := t1.getD vpn.2.1 0
        if entry_present e1 && !entry_is_leaf e1 then
          (memLookup s.mem (entry_address e1)).isSome
        else true
  else true

/-- The two pre-existing tables of the walk, when both exist, live in
distinct frames. -/
def pathDistinct (s : PTState) (v : Nat) : Bool :=
  let vpn := vpn_sv39 v
  let e2 := s.root.getD vpn.1 0
  if entry_present e2 && !entry_is_leaf e2 then
    match memLookup s.mem (entry_address e2) with
    | none => true
    | some t1 =>
        let e1 := t1.getD vpn.2.1 0
        if entry_present e1 && !entry_is_leaf e1 then
          entry_address e1 ≠ entry_address e2
        else true
  else true

/-- The state a successful map/unmap round trip leaves behind: the
initial state plus exactly the intermediate tables the map had to
install (none, one below a pre-existing level-2 entry, or a chain of two
below the root), each holding only the link written into it. -/
def roundTripExpected (s : PTState) (v : Nat) : PTState :=
  let vpn := vpn_sv39 v
  let e2 := s.root.getD vpn.1 0
  if entry_present e2 then
    match memLookup s.mem (entry_address e2) with
    | none => s
    | some t1 =>
        let e1 := t1.getD vpn.2.1 0
        if entry_present e1 then s
        else
          match s.pool with
          | [] => s
          | f1 :: rest =>
              { s with
                mem := (f1, Table.empty) ::
                  memSet s.mem (entry_address e2)
                    (t1.set vpn.2.1 (entry_set_present (entry_set_address e1 f1))),
                pool := rest }
  else
    match s.pool with
    | f1 :: f2 :: rest =>
        { s with
          root := s.root.set vpn.1 (entry_set_present (entry_set_address e2 f1)),
          mem := (f2, Table.empty) ::
            (f1, Table.empty.set vpn.2.1
              (entry_set_present (entry_set_address 0 f2))) :: s.mem,
          pool := rest }
    | _ => s

/-- Observer for claim C4: the level-0 entry the walk of `v` reaches in
a state, when both intermediate levels are present non-leaf entries
pointing to known tables. -/
def readLevel0 (s : PTState) (v : Nat) : Option Nat :=
  let vpn := vpn_sv39 v
  let e2 := s.root.getD vpn.1 0
  if entry_is_leaf e2 then none
  else if !entry_present e2 then none
  else
    match memLookup s.mem (entry_address e2) with
    | none => none
    | some t1 =>
        let e1 := t1.getD vpn.2.1 0
        if entry_is_leaf e1 then none
        else if !entry_present e1 then none
        else
          match memLookup s.mem (entry_address e1) with
          | none => none
          | some t0 => some (t0.getD vpn.2.2 0)

/-- A concrete page-table state for exercising the map walk: a zeroed
512-entry root, no intermediate tables, and a two-frame allocator
pool. -/
def c34State : PTState :=
  ⟨List.replicate 512 0, [], [0x81000000, 0x81001000], []⟩

/-- Readable and writable mapping rights. -/
def c34Rights : Rights := ⟨false, true, true, false⟩

/-- Non-global mapping flags. -/
def c34Flags : Flags := ⟨false⟩

/-! ## Theorems -/

theorem bumpVruntime_ge (keys : List Nat) (v : Nat) : v ≤ bumpVruntime keys v := by
  rw [bumpVruntime]
  split
  · exact Nat.le_trans (Nat.le_succ v) (bumpVruntime_ge _ _)
  · exact Nat.le_refl v
termination_by keys.length
decreasing_by
  have h1 := List.length_erase_of_mem (by assumption)
  have h2 := List.length_pos_of_mem (by assumption)
  omega

/-! ## Theorems for claims C5, C6, C7, C8, C10 -/

/-- C5: vruntime monotonicity.  Polling a task adds the elapsed poll time
to its vruntime (a wrapping u64 addition, non-decreasing as long as the
accumulator does not overflow), and re-enqueueing into the ready queue
sets the vruntime to the maximum of its current value and the lowest key
of the queue, incremented further while the key is already taken; both
operations never decrease the vruntime. -/
theorem C5_vruntime_monotone (v e lowest : Nat) (keys : List Nat)
    (hov : v + e < 2 ^ 64) :
    v ≤ pollVruntimeUpdate v e ∧ v ≤ requeueVruntime v lowest keys := by
  constructor
  · unfold pollVruntimeUpdate
    rw [Nat.mod_eq_of_lt hov]
    exact Nat.le_add_right v e
  · unfold requeueVruntime
    exact Nat.le_trans (Nat.le_max_left v lowest) (bumpVruntime_ge _ _)

/-- Witness for C5 at vruntime 5, elapsed 7, lowest queue key 3 and
ready-queue keys 12 and 13. -/
theorem C5_vruntime_monotone_witness :
    5 ≤ pollVruntimeUpdate 5 7 ∧ 5 ≤ requeueVruntime 5 3 [12, 13] :=
  C5_vruntime_monotone 5 7 3 [12, 13] (by decide)

/-- C6 counterexample: the claim asserts that whenever the executor has
polled other tasks since the last poll-generation observation, the
remaining quantum is reset to a full max-run-duration before the resume
disposition is acted on.  The thread loop never reads the poll
generation: a dispatch that resumes with `Continue` (for example a
syscall that awaited, during which other tasks were polled) keeps the
reduced quantum 9998000 ns instead of the full 25000000 ns. -/
theorem C6_counterexample :
    ¬ (∀ (otherTasksPolled : Bool) (r e1 : Nat) (res : Resume) (e2 r1 : Nat)
        (y : Bool), otherTasksPolled = true →
        threadLoopStep r e1 res e2 = .cont r1 y → r1 = maxRunNanos) := by
  intro h
  have := h true 10000000 1000 .Continue 1000 9998000 false rfl (by decide)
  simp [maxRunNanos] at this

/-- C6 amended: the thread loop does not consult the poll generation.
When an iteration of the loop continues, the remaining quantum is reset
to the full max-run-duration exactly when the `Yield` arm was taken
(voluntary yield or quantum expiry); in the `Continue` arm the quantum
keeps decreasing by the measured execution and trap-handling times. -/
theorem C6_quantum_reset (r e1 : Nat) (res : Resume) (e2 r1 : Nat) (y : Bool)
    (h : threadLoopStep r e1 res e2 = .cont r1 y) :
    (y = true → r1 = maxRunNanos) ∧
    (y = false → r1 = r - e1 - e2 ∧ res = .Continue ∧ r - e1 ≠ 0) := by
  unfold threadLoopStep at h
  by_cases hz : r - e1 = 0
  · simp [hz] at h
    simp [← h.1, ← h.2]
  · simp [hz] at h
    cases res with
    | Continue =>
        simp at h
        constructor
        · intro hy
          rw [hy] at h
          simp at h
        · intro _
          exact ⟨h.1.symm, rfl, hz⟩
    | Yield =>
        simp at h
        simp [← h.1, ← h.2]
    | Terminate code => simp at h
    | Fault => simp at h

/-- Witness for C6 amended: a `Continue` iteration with quantum 10000000,
execution time 1000 and handling time 1000 continues with quantum
10000000 - 1000 - 1000. -/
theorem C6_quantum_reset_witness :
    (false = true → 9998000 = maxRunNanos) ∧
    (false = false →
      9998000 = 10000000 - 1000 - 1000 ∧ Resume.Continue = Resume.Continue ∧
        10000000 - 1000 ≠ 0) :=
  C6_quantum_reset 10000000 1000 .Continue 1000 9998000 false (by decide)

/-- C7 counterexample: the claim asserts that every interrupt cause other
than the supervisor timer yields `Resume::Continue`; the supervisor
external interrupt arm instead returns `Resume::Yield` (without stopping
the timer). -/
theorem C7_counterexample :
    handle_interrupt .SupervisorExternal = (.Yield, false) ∧
      handle_interrupt .SupervisorExternal ≠ (.Continue, false) := by
  decide

/-- C7 amended: `handle_interrupt` yields exactly for the supervisor
timer interrupt (after stopping the timer) and for the supervisor
external interrupt (timer left running, warning logged); every other
interrupt cause returns `Resume::Continue` with a warning and without
stopping the timer. -/
theorem C7_interrupt_dispositions (cause : InterruptCause) :
    ((handle_interrupt cause).1 = .Yield ↔
      cause = .SupervisorTimer ∨ cause = .SupervisorExternal) ∧
    ((handle_interrupt cause).2 = true ↔ cause = .SupervisorTimer) ∧
    (cause ≠ .SupervisorTimer → cause ≠ .SupervisorExternal →
      handle_interrupt cause = (.Continue, false)) := by
  cases cause <;> simp [handle_interrupt]

/-- Witness for C7 amended at the supervisor software interrupt, which
resumes with `Continue` and does not stop the timer. -/
theorem C7_interrupt_dispositions_witness :
    ((handle_interrupt .SupervisorSoft).1 = .Yield ↔
      InterruptCause.SupervisorSoft = .SupervisorTimer ∨
        InterruptCause.SupervisorSoft = .SupervisorExternal) ∧
    ((handle_interrupt .SupervisorSoft).2 = true ↔
      InterruptCause.SupervisorSoft = .SupervisorTimer) ∧
    (InterruptCause.SupervisorSoft ≠ .SupervisorTimer →
      InterruptCause.SupervisorSoft ≠ .SupervisorExternal →
      handle_interrupt .SupervisorSoft = (.Continue, false)) :=
  C7_interrupt_dispositions .SupervisorSoft

/-- C8 counterexample: the claim asserts that syscall id 999 (DebugWrite)
copies the user bytes and returns the number of bytes written.  The
dispatcher classifies id 999 as `Unknown` and returns `usize::MAX` with
`Resume::Continue`; for a 13-byte buffer the returned value is not 13. -/
theorem C8_counterexample :
    syscallOpFrom 999 = .UnknownOp ∧
      handleSyscallPure 999 [4096, 13] = some ⟨.Continue, usizeMax⟩ ∧
      usizeMax ≠ 13 := by
  refine ⟨by decide, by decide, by decide⟩

/-- C8 amended: a syscall with id 999 is classified as `Unknown`; the
kernel logs a warning and places `usize::MAX` in the return register with
`Resume::Continue`, performing no user copy and no console write.  No
DebugWrite operation exists in the dispatcher. -/
theorem C8_debug_write_unknown (args : List Nat) :
    syscallOpFrom 999 = .UnknownOp ∧
      handleSyscallPure 999 args = some ⟨.Continue, usizeMax⟩ := by
  exact ⟨by decide, rfl⟩

/-- C10 counterexample: the claim asserts that `translate_physical`
returns `Some(KERNEL_START + p)` for every physical address `p`.  At
`p = 2 ^ 38` (256 GiB, representable since `Physical::MAX = 2 ^ 44 - 1`)
the 64-bit addition wraps and the `Virtual::<Kernel>` constructor
panics, so the function does not return at all. -/
theorem C10_counterexample :
    translate_physical (2 ^ 38) = .panic ∧ 2 ^ 38 ≤ PhysicalMax := by
  refine ⟨by decide, by decide⟩

/-- C10 amended: for every physical address below 256 GiB (so that
`KERNEL_START + p` stays inside the 64-bit kernel window) the function
returns `Some(KERNEL_START + p)`, and the `None` branch of the `Option`
return type is never taken for any input. -/
theorem C10_translate_physical :
    (∀ p, p < 2 ^ 38 → translate_physical p = .ok (some (KERNEL_START + p))) ∧
    (∀ p, translate_physical p ≠ .ok none) := by
  constructor
  · intro p hp
    unfold translate_physical
    rw [Nat.mod_eq_of_lt (by unfold KERNEL_START; omega)]
    rw [if_pos (by unfold KERNEL_START KernelVirtStart; omega)]
  · intro p
    unfold translate_physical
    dsimp only
    rcases le_or_lt KernelVirtStart ((KERNEL_START + p) % 2 ^ 64) with h | h
    · rw [if_pos h]
      simp
    · rw [if_neg (Nat.not_le.mpr h)]
      simp

/-- Witness for C10 amended at the physical address 4096. -/
theorem C10_translate_physical_witness :
    translate_physical 4096 = .ok (some (KERNEL_START + 4096)) :=
  C10_translate_physical.1 4096 (by decide)


theorem markFold_miss (g : Nat → Nat) (f : FrameFlags → FrameFlags)
    (bm : Nat → FrameFlags) (s n i : Nat)
    (h : ∀ k, k < n → g (s + k) ≠ i) :
    markFold g f bm s n i = bm i := by
  induction n with
  | zero => rfl
  | succ n ih =>
      simp only [markFold]
      rw [if_neg (fun hc => h n (Nat.lt_succ_self n) hc.symm)]
      exact ih fun k hk => h k (Nat.lt_succ_of_lt hk)

theorem markFold_hit (g : Nat → Nat) (f : FrameFlags → FrameFlags)
    (bm : Nat → FrameFlags) (s n i : Nat)
    (hf : ∀ x, f (f x) = f x) (h : ∃ k, k < n ∧ g (s + k) = i) :
    markFold g f bm s n i = f (bm i) := by
  induction n with
  | zero => obtain ⟨k, hk, _⟩ := h; omega
  | succ n ih =>
      obtain ⟨k, hk, hg⟩ := h
      by_cases hlast : i = g (s + n)
      · subst hlast
        simp only [markFold, if_pos rfl]
        by_cases hbefore : ∃ k, k < n ∧ g (s + k) = g (s + n)
        · rw [ih hbefore, hf]
        · rw [markFold_miss g f bm s n _ (by
            intro k hkn
            exact fun hc => hbefore ⟨k, hkn, hc⟩)]
      · simp only [markFold, if_neg hlast]
        refine ih ⟨k, ?_, hg⟩
        rcases Nat.lt_succ_iff_lt_or_eq.mp hk with h1 | h1
        · exact h1
        · exact absurd (h1 ▸ hg).symm hlast

theorem markFold_pres (g : Nat → Nat) (f : FrameFlags → FrameFlags)
    (bm : Nat → FrameFlags) (s n i : Nat) (P : FrameFlags → Prop)
    (hf : ∀ x, P (f x)) (hbm : P (bm i)) :
    P (markFold g f bm s n i) := by
  induction n with
  | zero => exact hbm
  | succ n ih =>
      simp only [markFold]
      split
      · exact hf _
      · exact ih

theorem markFold_pres2 (g : Nat → Nat) (f : FrameFlags → FrameFlags)
    (bm : Nat → FrameFlags) (s n i : Nat) (P : FrameFlags → Prop)
    (hf : ∀ x, P x → P (f x)) (hbm : P (bm i)) :
    P (markFold g f bm s n i) := by
  induction n with
  | zero => exact hbm
  | succ n ih =>
      simp only [markFold]
      split
      · exact hf _ ih
      · exact ih

theorem foldl_markRegionFree_low (regions : List Region)
    (bm : Nat → FrameFlags) (i : Nat) (hi : i < 512)
    (hreg : ∀ r ∈ regions, 512 ≤ phys2index 0x80000000 (pageAlignUp r.start)) :
    regions.foldl (markRegionFree 0x80000000) bm i = bm i := by
  induction regions generalizing bm with
  | nil => rfl
  | cons r rs ih =>
      rw [List.foldl_cons]
      rw [ih _ fun q hq => hreg q (List.mem_cons_of_mem r hq)]
      unfold markRegionFree
      refine markFold_miss _ _ _ _ _ _ fun k hk hc => ?_
      have hs := hreg r (List.mem_cons_self r rs)
      simp only [id] at hc
      omega

theorem foldl_markRegionFree_kf (regions : List Region)
    (bm : Nat → FrameFlags) (i : Nat)
    (h : bm i = ⟨false, true, false⟩ ∨ bm i = ⟨true, false, false⟩) :
    regions.foldl (markRegionFree 0x80000000) bm i = ⟨false, true, false⟩ ∨
      regions.foldl (markRegionFree 0x80000000) bm i = ⟨true, false, false⟩ := by
  induction regions generalizing bm with
  | nil => exact h
  | cons r rs ih =>
      rw [List.foldl_cons]
      refine ih _ ?_
      unfold markRegionFree
      refine markFold_pres2 _ _ _ _ _ _
        (fun x => x = ⟨false, true, false⟩ ∨ x = ⟨true, false, false⟩) ?_ h
      rintro x (hx | hx) <;> rw [hx] <;> right <;> rfl

theorem findRunFrom_allFree (bm : Nat → FrameFlags) (count : Nat) :
    ∀ fuel start res, findRunFrom bm count start fuel = some res →
      allFree bm res count = true := by
  intro fuel
  induction fuel with
  | zero => intro start res h; exact absurd h (by simp [findRunFrom])
  | succ fuel ih =>
      intro start res h
      unfold findRunFrom at h
      by_cases hfree : allFree bm start count
      · rw [if_pos hfree] at h
        cases h
        exact hfree
      · rw [if_neg hfree] at h
        exact ih _ _ h

theorem findRun_allFree (bm : Nat → FrameFlags) (len count start : Nat)
    (h : findRun bm len count = some start) : allFree bm start count = true :=
  findRunFrom_allFree bm count _ _ _ h


theorem c1_bitmap_closed_form : ∀ i, c1State0.bitmap i = c1ExplicitBitmap i := by
  intro i
  have hbm : c1State0.bitmap =
      markFold (fun a => phys2index 0x80000000 a) markFirmware
        (markFold id markFree (fun _ => ⟨false, true, false⟩) 512 1)
        0x80000000 0x200000 := rfl
  rw [hbm]
  rcases Nat.lt_trichotomy i 512 with hi | hi | hi
  · rw [markFold_hit (fun a => phys2index 0x80000000 a) markFirmware _
      0x80000000 0x200000 i (fun x => rfl)
      ⟨i * 4096, by omega, by simp only [phys2index, PAGE_SIZE]; omega⟩]
    rw [markFold_miss id markFree _ 512 1 i
      (by intro k hk hc; simp only [id] at hc; omega)]
    simp only [c1ExplicitBitmap, if_pos hi]
    rfl
  · subst hi
    rw [markFold_miss (fun a => phys2index 0x80000000 a) markFirmware _
      0x80000000 0x200000 512
      (by intro k hk hc; simp only [phys2index, PAGE_SIZE] at hc; omega)]
    rw [markFold_hit id markFree _ 512 1 512 (fun x => rfl)
      ⟨0, by omega, by simp only [id]⟩]
    rfl
  · rw [markFold_miss (fun a => phys2index 0x80000000 a) markFirmware _
      0x80000000 0x200000 i
      (by intro k hk hc; simp only [phys2index, PAGE_SIZE] at hc; omega)]
    rw [markFold_miss id markFree _ 512 1 i
      (by intro k hk hc; simp only [id] at hc; omega)]
    simp only [c1ExplicitBitmap]
    rw [if_neg (by omega), if_neg (by omega)]

theorem c1State0_eq :
    c1State0 = ⟨0x80000000, 0x80201000, 513, c1ExplicitBitmap⟩ := by
  have hb : c1State0.bitmap = c1ExplicitBitmap := funext c1_bitmap_closed_form
  calc c1State0 = ⟨0x80000000, 0x80201000, 513, c1State0.bitmap⟩ := rfl
    _ = ⟨0x80000000, 0x80201000, 513, c1ExplicitBitmap⟩ := by rw [hb]

set_option maxRecDepth 40000 in
/-- C1 counterexample: from the freshly initialised directory of
`c1State0` (whose 513 records each carry exactly one flag), a single
`allocate_range(1, flags)` call *without* the KERNEL allocation flag
returns the free frame `0x80200000` and leaves its record with *no* flag
set — neither Free, Kernel nor Firmware — refuting the exactly-one-flag
invariant. -/
theorem C1_counterexample :
    ((allocate_range c1State0 1 ⟨false, false⟩).map
        fun p => (p.1, p.2.bitmap 512, exactlyOneFlag (p.2.bitmap 512))) =
      some (0x80200000, ⟨false, false, false⟩, false) := by
  rw [c1State0_eq]
  decide

/-- C1 amended: after initialisation from a memory map whose free
regions lie above the 2 MiB firmware window, every record of the frame
directory carries exactly one of the flags {Free, Kernel, Firmware}.
The allocator operations, however, preserve only the weaker invariant
that Free and Kernel are never simultaneously set: in particular a frame
allocated without the KERNEL allocation flag carries no flag at all
while it is allocated. -/
theorem C1_flag_invariants :
    (∀ ramEnd regions,
      (∀ r ∈ regions, 512 ≤ phys2index 0x80000000 (pageAlignUp r.start)) →
      ∀ i,
        exactlyOneFlag ((pmmSetup 0x80000000 ramEnd regions).bitmap i) = true) ∧
    (∀ s count flags addr s₁,
      (∀ i, freeKernelExclusive (s.bitmap i) = true) →
      allocate_range s count flags = some (addr, s₁) →
      ∀ i, freeKernelExclusive (s₁.bitmap i) = true) ∧
    (∀ s base count s₁,
      (∀ i, freeKernelExclusive (s.bitmap i) = true) →
      deallocate_range s base count = some s₁ →
      ∀ i, freeKernelExclusive (s₁.bitmap i) = true) ∧
    (∀ s count zeroed addr s₁, 1 ≤ count →
      (∀ i, exactlyOneFlag (s.bitmap i) = true) →
      allocate_range s count ⟨false, zeroed⟩ = some (addr, s₁) →
      s₁.bitmap (phys2index s.ramStart addr) = ⟨false, false, false⟩) := by
  refine ⟨?_, ?_, ?_, ?_⟩
  · intro ramEnd regions hreg i
    have hbm : (pmmSetup 0x80000000 ramEnd regions).bitmap =
        markFold (fun a => phys2index 0x80000000 a) markFirmware
          (regions.foldl (markRegionFree 0x80000000)
            (fun _ => ⟨false, true, false⟩)) 0x80000000 0x200000 := rfl
    rw [hbm]
    by_cases hi : i < 512
    · rw [markFold_hit (fun a => phys2index 0x80000000 a) markFirmware _
        0x80000000 0x200000 i (fun x => rfl)
        ⟨i * 4096, by omega, by simp only [phys2index, PAGE_SIZE]; omega⟩]
      rw [foldl_markRegionFree_low regions _ i hi hreg]
      rfl
    · rw [markFold_miss (fun a => phys2index 0x80000000 a) markFirmware _
        0x80000000 0x200000 i
        (by intro k hk hc; simp only [phys2index, PAGE_SIZE] at hc; omega)]
      rcases foldl_markRegionFree_kf regions (fun _ => ⟨false, true, false⟩) i
        (Or.inl rfl) with h | h <;> rw [h] <;> rfl
  · intro s count flags addr s₁ hpre halloc i
    unfold allocate_range at halloc
    cases hfr : findRun s.bitmap s.frameCount count with
    | none => rw [hfr] at halloc; exact absurd halloc (by simp)
    | some start =>
        rw [hfr] at halloc
        simp only [Option.some.injEq, Prod.mk.injEq] at halloc
        obtain ⟨-, hs₁⟩ := halloc
        subst hs₁
        refine markFold_pres _ _ _ _ _ _
          (fun x => freeKernelExclusive x = true) ?_ (hpre i)
        intro x
        cases hk : flags.kernel <;> simp [allocMark, freeKernelExclusive, hk]
  · intro s base count s₁ hpre hde i
    unfold deallocate_range at hde
    dsimp only at hde
    split at hde
    · simp only [Option.some.injEq] at hde
      subst hde
      refine markFold_pres _ _ _ _ _ _
        (fun x => freeKernelExclusive x = true) ?_ (hpre i)
      intro x
      simp [deallocMark, freeKernelExclusive]
    · exact absurd hde (by simp)
  · intro s count zeroed addr s₁ hcount hpre halloc
    unfold allocate_range at halloc
    cases hfr : findRun s.bitmap s.frameCount count with
    | none => rw [hfr] at halloc; exact absurd halloc (by simp)
    | some start =>
        rw [hfr] at halloc
        simp only [Option.some.injEq, Prod.mk.injEq] at halloc
        obtain ⟨haddr, hs₁⟩ := halloc
        subst hs₁
        have hidx : phys2index s.ramStart addr = start := by
          rw [← haddr]
          simp only [index2phys, phys2index, PAGE_SIZE]
          omega
        have hfree : (s.bitmap start).free = true := by
          have hall := findRun_allFree s.bitmap s.frameCount count start hfr
          unfold allFree at hall
          rw [List.all_eq_true] at hall
          have h0 := hall 0 (List.mem_range.mpr (by omega))
          simpa using h0
        have hflags : s.bitmap start = ⟨true, false, false⟩ := by
          have h1 := hpre start
          cases hsb : s.bitmap start with
          | mk a b c =>
              rw [hsb] at h1 hfree
              cases a <;> cases b <;> cases c <;> simp_all [exactlyOneFlag]
        dsimp only
        rw [hidx]
        rw [markFold_hit id (allocMark false) s.bitmap start count start
          (fun x => rfl) ⟨0, by omega, by simp⟩]
        rw [hflags]
        rfl

/-- Witness for C1 amended: the concrete boot instance satisfies
exactly-one-flag after setup (checked at record 5), and allocating one
frame without the KERNEL flag from an all-free four-record directory
leaves the allocated record with no flag set. -/
theorem C1_flag_invariants_witness :
    exactlyOneFlag
        ((pmmSetup 0x80000000 0x80201000 [⟨0x80200000, 0x1000⟩]).bitmap 5) =
      true ∧
    c1TestAlloc.bitmap (phys2index c1TestState.ramStart 0) =
      ⟨false, false, false⟩ :=
  ⟨C1_flag_invariants.1 0x80201000 [⟨0x80200000, 0x1000⟩] (by decide) 5,
   C1_flag_invariants.2.2.2 c1TestState 1 false 0 c1TestAlloc (by decide)
     (fun i => rfl) (by rfl)⟩


/-- C2: the second sender's deposit observes task 0 still in
`WaitingForMessage`, and writes the inbound-message slot while it still
holds the first sender's message: the `Option::replace` displaces
message `⟨1, 0, 42, ..⟩`, which is silently lost, and leaves the slot
holding `⟨2, 0, 7, ..⟩`.  The first deposit (step 2) did find the slot
empty, so the violation is in the protocol, not in the schedule. -/
theorem C2_slot_overwrite :
    c2Step2.1 = .deposited none ∧
    c2Step4.1 = .deposited (some ⟨1, 0, 42, 3, mkPayloadBuf [1, 2, 3]⟩) ∧
    (c2Step4.2.locals 0).ipc_message = some ⟨2, 0, 7, 1, mkPayloadBuf [9]⟩ := by
  refine ⟨by decide, by decide, by decide⟩

/-- C9: send validation and atomicity of failure.  A payload longer than
256 bytes fails with `PayloadTooLarge`; a receiver that does not exist
fails with `TaskDoesNotExist`.  Both failures are produced by the code
that runs before the first await of `send`, and the configuration —
including the sender's waiting state — is returned unchanged, so the
sender is never suspended. -/
theorem C9_send_validation (c : IpcConfig) (sender dest : TaskId)
    (operation : Nat) (payload : List Nat) :
    (payload.length > MAX_PAYLOAD_SIZE →
      sendStart c sender dest operation payload = (.failed .PayloadTooLarge, c)) ∧
    (payload.length ≤ MAX_PAYLOAD_SIZE → dest ∉ c.tasks →
      sendStart c sender dest operation payload = (.failed .TaskDoesNotExist, c)) := by
  constructor
  · intro hlen
    unfold sendStart
    rw [if_pos hlen]
  · intro hlen hto
    unfold sendStart
    rw [if_neg (by omega), if_pos hto]

/-- Witness for C9 on a two-task configuration: a 257-byte payload fails
with `PayloadTooLarge`, and a send to the absent task 9 fails with
`TaskDoesNotExist`; the configuration is unchanged in both cases. -/
theorem C9_send_validation_witness :
    sendStart c2Config0 1 0 5 (List.replicate 257 0) =
      (.failed .PayloadTooLarge, c2Config0) ∧
    sendStart c2Config0 1 9 5 [3] = (.failed .TaskDoesNotExist, c2Config0) :=
  ⟨(C9_send_validation c2Config0 1 0 5 (List.replicate 257 0)).1
     (by simp [MAX_PAYLOAD_SIZE]),
   (C9_send_validation c2Config0 1 9 5 [3]).2 (by simp [MAX_PAYLOAD_SIZE])
     (by decide)⟩


/-! ### Arithmetic lemmas about page-table entries -/

theorem setBit_val_1 (e : Nat) (v : Bool) :
    setBit e 1 v = e - e / 1 % 2 * 1 + cond v 1 0 := by
  unfold setBit getBit
  rcases v <;> split_ifs <;> simp_all <;> omega

theorem setBit_val_2 (e : Nat) (v : Bool) :
    setBit e 2 v = e - e / 2 % 2 * 2 + cond v 2 0 := by
  unfold setBit getBit
  rcases v <;> split_ifs <;> simp_all <;> omega

theorem setBit_val_4 (e : Nat) (v : Bool) :
    setBit e 4 v = e - e / 4 % 2 * 4 + cond v 4 0 := by
  unfold setBit getBit
  rcases v <;> split_ifs <;> simp_all <;> omega

theorem setBit_val_8 (e : Nat) (v : Bool) :
    setBit e 8 v = e - e / 8 % 2 * 8 + cond v 8 0 := by
  unfold setBit getBit
  rcases v <;> split_ifs <;> simp_all <;> omega

theorem setBit_val_16 (e : Nat) (v : Bool) :
    setBit e 16 v = e - e / 16 % 2 * 16 + cond v 16 0 := by
  unfold setBit getBit
  rcases v <;> split_ifs <;> simp_all <;> omega

theorem setBit_val_32 (e : Nat) (v : Bool) :
    setBit e 32 v = e - e / 32 % 2 * 32 + cond v 32 0 := by
  unfold setBit getBit
  rcases v <;> split_ifs <;> simp_all <;> omega

theorem link_val (e fr : Nat) (he : entry_present e = false) :
    entry_set_present (entry_set_address e fr) =
      e % 1024 + fr / 4096 * 1024 + 1 := by
  have h2 : ¬ e % 2 = 1 := by
    simpa [entry_present, getBit] using he
  unfold entry_set_present entry_set_address
  rw [setBit_val_1]
  simp only [cond]
  omega

theorem link_address (e fr : Nat) (he : entry_present e = false)
    (hal : fr % 4096 = 0) :
    entry_address (entry_set_present (entry_set_address e fr)) = fr := by
  have h2 : ¬ e % 2 = 1 := by
    simpa [entry_present, getBit] using he
  rw [link_val e fr he]
  unfold entry_address
  omega

theorem link_present (e fr : Nat) (he : entry_present e = false) :
    entry_present (entry_set_present (entry_set_address e fr)) = true := by
  have h2 : ¬ e % 2 = 1 := by
    simpa [entry_present, getBit] using he
  rw [link_val e fr he]
  simp only [entry_present, getBit, Nat.div_one, decide_eq_true_eq]
  omega

theorem link_not_leaf (e fr : Nat) (he : entry_present e = false)
    (hl : entry_is_leaf e = false) :
    entry_is_leaf (entry_set_present (entry_set_address e fr)) = false := by
  have h2 : ¬ e % 2 = 1 := by
    simpa [entry_present, getBit] using he
  have hb := hl
  simp only [entry_is_leaf, getBit, Bool.or_eq_false_iff,
    decide_eq_false_iff_not] at hb
  rw [link_val e fr he]
  simp only [entry_is_leaf, getBit, Bool.or_eq_false_iff,
    decide_eq_false_iff_not]
  omega

theorem setBit1_bits (e : Nat) (v : Bool) :
    setBit e 1 v % 2 = cond v 1 0 ∧
    setBit e 1 v / 2 % 2 = e / 2 % 2 ∧
    setBit e 1 v / 4 % 2 = e / 4 % 2 ∧
    setBit e 1 v / 8 % 2 = e / 8 % 2 ∧
    setBit e 1 v / 16 % 2 = e / 16 % 2 ∧
    setBit e 1 v / 32 % 2 = e / 32 % 2 ∧
    setBit e 1 v / 1024 = e / 1024 := by
  rw [setBit_val_1]
  rcases v <;> simp only [cond] <;>
    exact ⟨by omega, by omega, by omega, by omega, by omega, by omega, by omega⟩

theorem setBit2_bits (e : Nat) (v : Bool) :
    setBit e 2 v % 2 = e % 2 ∧
    setBit e 2 v / 2 % 2 = cond v 1 0 ∧
    setBit e 2 v / 4 % 2 = e / 4 % 2 ∧
    setBit e 2 v / 8 % 2 = e / 8 % 2 ∧
    setBit e 2 v / 16 % 2 = e / 16 % 2 ∧
    setBit e 2 v / 32 % 2 = e / 32 % 2 ∧
    setBit e 2 v / 1024 = e / 1024 := by
  rw [setBit_val_2]
  rcases v <;> simp only [cond] <;>
    exact ⟨by omega, by omega, by omega, by omega, by omega, by omega, by omega⟩

theorem setBit4_bits (e : Nat) (v : Bool) :
    setBit e 4 v % 2 = e % 2 ∧
    setBit e 4 v / 2 % 2 = e / 2 % 2 ∧
    setBit e 4 v / 4 % 2 = cond v 1 0 ∧
    setBit e 4 v / 8 % 2 = e / 8 % 2 ∧
    setBit e 4 v / 16 % 2 = e / 16 % 2 ∧
    setBit e 4 v / 32 % 2 = e / 32 % 2 ∧
    setBit e 4 v / 1024 = e / 1024 := by
  rw [setBit_val_4]
  rcases v <;> simp only [cond] <;>
    exact ⟨by omega, by omega, by omega, by omega, by omega, by omega, by omega⟩

theorem setBit8_bits (e : Nat) (v : Bool) :
    setBit e 8 v % 2 = e % 2 ∧
    setBit e 8 v / 2 % 2 = e / 2 % 2 ∧
    setBit e 8 v / 4 % 2 = e / 4 % 2 ∧
    setBit e 8 v / 8 % 2 = cond v 1 0 ∧
    setBit e 8 v / 16 % 2 = e / 16 % 2 ∧
    setBit e 8 v / 32 % 2 = e / 32 % 2 ∧
    setBit e 8 v / 1024 = e / 1024 := by
  rw [setBit_val_8]
  rcases v <;> simp only [cond] <;>
    exact ⟨by omega, by omega, by omega, by omega, by omega, by omega, by omega⟩

theorem setBit16_bits (e : Nat) (v : Bool) :
    setBit e 16 v % 2 = e % 2 ∧
    setBit e 16 v / 2 % 2 = e / 2 % 2 ∧
    setBit e 16 v / 4 % 2 = e / 4 % 2 ∧
    setBit e 16 v / 8 % 2 = e / 8 % 2 ∧
    setBit e 16 v / 16 % 2 = cond v 1 0 ∧
    setBit e 16 v / 32 % 2 = e / 32 % 2 ∧
    setBit e 16 v / 1024 = e / 1024 := by
  rw [setBit_val_16]
  rcases v <;> simp only [cond] <;>
    exact ⟨by omega, by omega, by omega, by omega, by omega, by omega, by omega⟩

theorem setBit32_bits (e : Nat) (v : Bool) :
    setBit e 32 v % 2 = e % 2 ∧
    setBit e 32 v / 2 % 2 = e / 2 % 2 ∧
    setBit e 32 v / 4 % 2 = e / 4 % 2 ∧
    setBit e 32 v / 8 % 2 = e / 8 % 2 ∧
    setBit e 32 v / 16 % 2 = e / 16 % 2 ∧
    setBit e 32 v / 32 % 2 = cond v 1 0 ∧
    setBit e 32 v / 1024 = e / 1024 := by
  rw [setBit_val_32]
  rcases v <;> simp only [cond] <;>
    exact ⟨by omega, by omega, by omega, by omega, by omega, by omega, by omega⟩

theorem getBit_congr (a b c : Nat) (h : a / c % 2 = b / c % 2) :
    getBit a c = getBit b c := by
  unfold getBit
  rw [h]

theorem mapLeafEntry_read (e0 frame : Nat) (r : Rights) (fl : Flags) :
    getBit (mapLeafEntry e0 frame r fl) 2 = r.read := by
  unfold mapLeafEntry entry_set_present entry_set_flags entry_set_rights
    entry_set_address
  rw [getBit_congr _ _ 2 (setBit1_bits _ true).2.1,
    getBit_congr _ _ 2 (setBit32_bits _ fl.global).2.1,
    getBit_congr _ _ 2 (setBit8_bits _ r.execute).2.1,
    getBit_congr _ _ 2 (setBit4_bits _ r.write).2.1]
  unfold getBit
  rw [(setBit2_bits _ r.read).2.1]
  rcases r.read <;> simp

theorem mapLeafEntry_write (e0 frame : Nat) (r : Rights) (fl : Flags) :
    getBit (mapLeafEntry e0 frame r fl) 4 = r.write := by
  unfold mapLeafEntry entry_set_present entry_set_flags entry_set_rights
    entry_set_address
  rw [getBit_congr _ _ 4 (setBit1_bits _ true).2.2.1,
    getBit_congr _ _ 4 (setBit32_bits _ fl.global).2.2.1,
    getBit_congr _ _ 4 (setBit8_bits _ r.execute).2.2.1]
  unfold getBit
  rw [(setBit4_bits _ r.write).2.2.1]
  rcases r.write <;> simp

theorem mapLeafEntry_execute (e0 frame : Nat) (r : Rights) (fl : Flags) :
    getBit (mapLeafEntry e0 frame r fl) 8 = r.execute := by
  unfold mapLeafEntry entry_set_present entry_set_flags entry_set_rights
    entry_set_address
  rw [getBit_congr _ _ 8 (setBit1_bits _ true).2.2.2.1,
    getBit_congr _ _ 8 (setBit32_bits _ fl.global).2.2.2.1]
  unfold getBit
  rw [(setBit8_bits _ r.execute).2.2.2.1]
  rcases r.execute <;> simp

theorem mapLeafEntry_user (e0 frame : Nat) (r : Rights) (fl : Flags) :
    getBit (mapLeafEntry e0 frame r fl) 16 = r.user := by
  unfold mapLeafEntry entry_set_present entry_set_flags entry_set_rights
    entry_set_address
  rw [getBit_congr _ _ 16 (setBit1_bits _ true).2.2.2.2.1,
    getBit_congr _ _ 16 (setBit32_bits _ fl.global).2.2.2.2.1,
    getBit_congr _ _ 16 (setBit8_bits _ r.execute).2.2.2.2.1,
    getBit_congr _ _ 16 (setBit4_bits _ r.write).2.2.2.2.1,
    getBit_congr _ _ 16 (setBit2_bits _ r.read).2.2.2.2.1]
  unfold getBit
  rw [(setBit16_bits _ r.user).2.2.2.2.1]
  rcases r.user <;> simp

theorem mapLeafEntry_global (e0 frame : Nat) (r : Rights) (fl : Flags) :
    getBit (mapLeafEntry e0 frame r fl) 32 = fl.global := by
  unfold mapLeafEntry entry_set_present entry_set_flags entry_set_rights
    entry_set_address
  rw [getBit_congr _ _ 32 (setBit1_bits _ true).2.2.2.2.2.1]
  unfold getBit
  rw [(setBit32_bits _ fl.global).2.2.2.2.2.1]
  rcases fl.global <;> simp

theorem mapLeafEntry_present (e0 frame : Nat) (r : Rights) (fl : Flags) :
    entry_present (mapLeafEntry e0 frame r fl) = true := by
  unfold mapLeafEntry entry_set_present entry_set_flags entry_set_rights
    entry_set_address entry_present getBit
  rw [Nat.div_one, (setBit1_bits _ true).1]
  simp

theorem mapLeafEntry_address (e0 frame : Nat) (r : Rights) (fl : Flags)
    (hal : frame % 4096 = 0) :
    entry_address (mapLeafEntry e0 frame r fl) = frame := by
  unfold mapLeafEntry entry_set_present entry_set_flags entry_set_rights
    entry_set_address entry_address
  rw [(setBit1_bits _ true).2.2.2.2.2.2,
    (setBit32_bits _ fl.global).2.2.2.2.2.2,
    (setBit8_bits _ r.execute).2.2.2.2.2.2,
    (setBit4_bits _ r.write).2.2.2.2.2.2,
    (setBit2_bits _ r.read).2.2.2.2.2.2,
    (setBit16_bits _ r.user).2.2.2.2.2.2]
  omega

theorem mapLeafEntry_is_leaf (e0 frame : Nat) (r : Rights) (fl : Flags) :
    entry_is_leaf (mapLeafEntry e0 frame r fl) =
      (r.read || r.write || r.execute) := by
  unfold entry_is_leaf
  rw [mapLeafEntry_read, mapLeafEntry_write, mapLeafEntry_execute]

/-! ### Table-memory and list lemmas -/

theorem memLookup_cons_self (k : Nat) (t : Table) (m : TableMem) :
    memLookup ((k, t) :: m) k = some t := by
  simp [memLookup]

theorem memLookup_cons_ne (k1 k : Nat) (t : Table) (m : TableMem)
    (h : k1 ≠ k) : memLookup ((k1, t) :: m) k = memLookup m k := by
  simp [memLookup, h]

theorem memSet_cons_self (k : Nat) (t t1 : Table) (m : TableMem) :
    memSet ((k, t1) :: m) k t = (k, t) :: m := by
  simp [memSet]

theorem memSet_cons_ne (k1 k : Nat) (t t1 : Table) (m : TableMem)
    (h : k1 ≠ k) : memSet ((k1, t1) :: m) k t = (k1, t1) :: memSet m k t := by
  simp [memSet, h]

theorem memLookup_memSet_self (m : TableMem) (k : Nat) (t t0 : Table)
    (h : memLookup m k = some t0) : memLookup (memSet m k t) k = some t := by
  induction m with
  | nil => simp [memLookup] at h
  | cons p rest ih =>
      obtain ⟨k1, t1⟩ := p
      by_cases hk : k1 = k
      · subst hk
        rw [memSet_cons_self, memLookup_cons_self]
      · rw [memLookup_cons_ne _ _ _ _ hk] at h
        rw [memSet_cons_ne _ _ _ _ _ hk, memLookup_cons_ne _ _ _ _ hk]
        exact ih h

theorem memLookup_memSet_ne (m : TableMem) (k j : Nat) (t : Table)
    (h : k ≠ j) : memLookup (memSet m k t) j = memLookup m j := by
  induction m with
  | nil => rfl
  | cons p rest ih =>
      obtain ⟨k1, t1⟩ := p
      by_cases hk : k1 = k
      · subst hk
        rw [memSet_cons_self, memLookup_cons_ne _ _ _ _ h,
          memLookup_cons_ne _ _ _ _ h]
      · rw [memSet_cons_ne _ _ _ _ _ hk]
        by_cases hj : k1 = j
        · subst hj
          rw [memLookup_cons_self, memLookup_cons_self]
        · rw [memLookup_cons_ne _ _ _ _ hj, memLookup_cons_ne _ _ _ _ hj]
          exact ih

theorem memSet_id (m : TableMem) (k : Nat) (t : Table)
    (h : memLookup m k = some t) : memSet m k t = m := by
  induction m with
  | nil => rfl
  | cons p rest ih =>
      obtain ⟨k1, t1⟩ := p
      by_cases hk : k1 = k
      · subst hk
        rw [memLookup_cons_self] at h
        rw [memSet_cons_self]
        cases h
        rfl
      · rw [memLookup_cons_ne _ _ _ _ hk] at h
        rw [memSet_cons_ne _ _ _ _ _ hk, ih h]

theorem getD_set_self (l : List Nat) (i e : Nat) (h : i < l.length) :
    (l.set i e).getD i 0 = e := by
  induction l generalizing i with
  | nil => simp at h
  | cons a rest ih =>
      cases i with
      | zero => rfl
      | succ i => exact ih i (by simpa using h)

theorem getD_set_ne (l : List Nat) (i j e : Nat) (h : i ≠ j) :
    (l.set i e).getD j 0 = l.getD j 0 := by
  induction l generalizing i j with
  | nil => rfl
  | cons a rest ih =>
      cases i with
      | zero =>
          cases j with
          | zero => exact absurd rfl h
          | succ j => rfl
      | succ i =>
          cases j with
          | zero => rfl
          | succ j => exact ih i j (by omega)

theorem set_zero_id (l : List Nat) (i : Nat) (h : l.getD i 0 = 0) :
    l.set i 0 = l := by
  induction l generalizing i with
  | nil => rfl
  | cons a rest ih =>
      cases i with
      | zero => simpa [List.getD] using congrArg (List.cons · rest) h.symm
      | succ i => simpa using ih i (by simpa [List.getD] using h)

theorem empty_getD (i : Nat) : Table.empty.getD i 0 = 0 := by
  have : ∀ n j, (List.replicate n (0 : Nat)).getD j 0 = 0 := by
    intro n
    induction n with
    | zero => intro j; rfl
    | succ n ih =>
        intro j
        cases j with
        | zero => rfl
        | succ j => exact ih j
  exact this 512 i

/-! ### Evaluation lemmas for the map walk -/

theorem mapWalkStep_leaf (s : PTState) (loc : Loc) (n e : Nat)
    (hr : readEntry s loc = some e) (hl : entry_is_leaf e = true) :
    mapWalkStep s loc n = .stop s (.err .AlreadyMapped) := by
  unfold mapWalkStep
  rw [hr]
  simp [hl]

theorem mapWalkStep_present (s : PTState) (loc : Loc) (n e : Nat)
    (hr : readEntry s loc = some e) (hl : entry_is_leaf e = false)
    (hp : entry_present e = true) :
    mapWalkStep s loc n = .next s (.tableIdx (entry_address e) n) := by
  unfold mapWalkStep
  rw [hr]
  simp [hl, hp]

theorem mapWalkStep_oom (s : PTState) (loc : Loc) (n e : Nat)
    (hr : readEntry s loc = some e) (hl : entry_is_leaf e = false)
    (hp : entry_present e = false) (hpool : s.pool = []) :
    mapWalkStep s loc n = .stop s (.err .OutOfMemory) := by
  unfold mapWalkStep
  rw [hr]
  simp [hl, hp, hpool]

theorem mapWalkStep_alloc (s : PTState) (loc : Loc) (n e fr : Nat)
    (rest : List Nat) (hr : readEntry s loc = some e)
    (hl : entry_is_leaf e = false) (hp : entry_present e = false)
    (hpool : s.pool = fr :: rest) :
    mapWalkStep s loc n =
      .next
        (writeEntry
          { s with mem := (fr, Table.empty) :: s.mem, pool := rest }
          loc (entry_set_present (entry_set_address e fr)))
        (.tableIdx fr n) := by
  unfold mapWalkStep
  rw [hr]
  simp [hl, hp, hpool]

/-! ### Symbolic evaluation of mapSv39, one lemma per outcome of the walk -/

theorem entry_present_zero : entry_present 0 = false := rfl

theorem entry_is_leaf_zero : entry_is_leaf 0 = false := rfl

theorem mapSv39_leaf2 (s : PTState) (v frame : Nat) (r : Rights) (fl : Flags)
    (hl2 : entry_is_leaf (s.root.getD (vpn_sv39 v).1 0) = true) :
    mapSv39 s v frame r fl = (s, .err .AlreadyMapped) := by
  unfold mapSv39
  dsimp only
  rw [mapWalkStep_leaf s (.rootIdx (vpn_sv39 v).1) (vpn_sv39 v).2.1 _ rfl hl2]

theorem mapSv39_leaf1 (s : PTState) (v frame : Nat) (r : Rights) (fl : Flags)
    (t1 : Table)
    (hl2 : entry_is_leaf (s.root.getD (vpn_sv39 v).1 0) = false)
    (hp2 : entry_present (s.root.getD (vpn_sv39 v).1 0) = true)
    (hlook : memLookup s.mem (entry_address (s.root.getD (vpn_sv39 v).1 0)) =
      some t1)
    (hl1 : entry_is_leaf (t1.getD (vpn_sv39 v).2.1 0) = true) :
    mapSv39 s v frame r fl = (s, .err .AlreadyMapped) := by
  unfold mapSv39
  dsimp only
  rw [mapWalkStep_present s (.rootIdx (vpn_sv39 v).1) (vpn_sv39 v).2.1 _ rfl
    hl2 hp2]
  dsimp only
  rw [mapWalkStep_leaf s _ (vpn_sv39 v).2.2 _
    (by dsimp only [readEntry]; rw [hlook]; rfl) hl1]

theorem mapSv39_l0_present (s : PTState) (v frame : Nat) (r : Rights)
    (fl : Flags) (t1 t0 : Table)
    (hl2 : entry_is_leaf (s.root.getD (vpn_sv39 v).1 0) = false)
    (hp2 : entry_present (s.root.getD (vpn_sv39 v).1 0) = true)
    (hlook : memLookup s.mem (entry_address (s.root.getD (vpn_sv39 v).1 0)) =
      some t1)
    (hl1 : entry_is_leaf (t1.getD (vpn_sv39 v).2.1 0) = false)
    (hp1 : entry_present (t1.getD (vpn_sv39 v).2.1 0) = true)
    (hlook0 : memLookup s.mem (entry_address (t1.getD (vpn_sv39 v).2.1 0)) =
      some t0)
    (he0 : entry_present (t0.getD (vpn_sv39 v).2.2 0) = true) :
    mapSv39 s v frame r fl = (s, .err .AlreadyMapped) := by
  unfold mapSv39
  dsimp only
  rw [mapWalkStep_present s (.rootIdx (vpn_sv39 v).1) (vpn_sv39 v).2.1 _ rfl
    hl2 hp2]
  dsimp only
  rw [mapWalkStep_present s _ (vpn_sv39 v).2.2 _
    (by dsimp only [readEntry]; rw [hlook]; rfl) hl1 hp1]
  dsimp only
  rw [show readEntry s
      (.tableIdx (entry_address (t1.getD (vpn_sv39 v).2.1 0)) (vpn_sv39 v).2.2)
      = some (t0.getD (vpn_sv39 v).2.2 0) from by
    dsimp only [readEntry]; rw [hlook0]; rfl]
  dsimp only
  rw [if_pos he0]

theorem mapSv39_l0_write (s : PTState) (v frame : Nat) (r : Rights)
    (fl : Flags) (t1 t0 : Table)
    (hl2 : entry_is_leaf (s.root.getD (vpn_sv39 v).1 0) = false)
    (hp2 : entry_present (s.root.getD (vpn_sv39 v).1 0) = true)
    (hlook : memLookup s.mem (entry_address (s.root.getD (vpn_sv39 v).1 0)) =
      some t1)
    (hl1 : entry_is_leaf (t1.getD (vpn_sv39 v).2.1 0) = false)
    (hp1 : entry_present (t1.getD (vpn_sv39 v).2.1 0) = true)
    (hlook0 : memLookup s.mem (entry_address (t1.getD (vpn_sv39 v).2.1 0)) =
      some t0)
    (he0 : entry_present (t0.getD (vpn_sv39 v).2.2 0) = false) :
    mapSv39 s v frame r fl =
      ({ s with
          mem := memSet s.mem (entry_address (t1.getD (vpn_sv39 v).2.1 0))
            (t0.set (vpn_sv39 v).2.2
              (mapLeafEntry (t0.getD (vpn_sv39 v).2.2 0) frame r fl)) },
        .ok) := by
  unfold mapSv39
  dsimp only
  rw [mapWalkStep_present s (.rootIdx (vpn_sv39 v).1) (vpn_sv39 v).2.1 _ rfl
    hl2 hp2]
  dsimp only
  rw [mapWalkStep_present s _ (vpn_sv39 v).2.2 _
    (by dsimp only [readEntry]; rw [hlook]; rfl) hl1 hp1]
  dsimp only
  rw [show readEntry s
      (.tableIdx (entry_address (t1.getD (vpn_sv39 v).2.1 0)) (vpn_sv39 v).2.2)
      = some (t0.getD (vpn_sv39 v).2.2 0) from by
    dsimp only [readEntry]; rw [hlook0]; rfl]
  dsimp only
  rw [if_neg (by rw [he0]; exact Bool.false_ne_true)]
  dsimp only [writeEntry]
  rw [hlook0]

theorem mapSv39_oom1 (s : PTState) (v frame : Nat) (r : Rights) (fl : Flags)
    (t1 : Table)
    (hl2 : entry_is_leaf (s.root.getD (vpn_sv39 v).1 0) = false)
    (hp2 : entry_present (s.root.getD (vpn_sv39 v).1 0) = true)
    (hlook : memLookup s.mem (entry_address (s.root.getD (vpn_sv39 v).1 0)) =
      some t1)
    (hl1 : entry_is_leaf (t1.getD (vpn_sv39 v).2.1 0) = false)
    (hp1 : entry_present (t1.getD (vpn_sv39 v).2.1 0) = false)
    (hpool : s.pool = []) :
    mapSv39 s v frame r fl = (s, .err .OutOfMemory) := by
  unfold mapSv39
  dsimp only
  rw [mapWalkStep_present s (.rootIdx (vpn_sv39 v).1) (vpn_sv39 v).2.1 _ rfl
    hl2 hp2]
  dsimp only
  rw [mapWalkStep_oom s _ (vpn_sv39 v).2.2 _
    (by dsimp only [readEntry]; rw [hlook]; rfl) hl1 hp1 hpool]

theorem mapSv39_alloc1 (s : PTState) (v frame : Nat) (r : Rights) (fl : Flags)
    (t1 : Table) (f1 : Nat) (rest : List Nat)
    (hl2 : entry_is_leaf (s.root.getD (vpn_sv39 v).1 0) = false)
    (hp2 : entry_present (s.root.getD (vpn_sv39 v).1 0) = true)
    (hlook : memLookup s.mem (entry_address (s.root.getD (vpn_sv39 v).1 0)) =
      some t1)
    (hl1 : entry_is_leaf (t1.getD (vpn_sv39 v).2.1 0) = false)
    (hp1 : entry_present (t1.getD (vpn_sv39 v).2.1 0) = false)
    (hpool : s.pool = f1 :: rest)
    (hfresh : f1 ≠ entry_address (s.root.getD (vpn_sv39 v).1 0)) :
    mapSv39 s v frame r fl =
      ({ s with
          mem := (f1, Table.empty.set (vpn_sv39 v).2.2
              (mapLeafEntry 0 frame r fl)) ::
            memSet s.mem (entry_address (s.root.getD (vpn_sv39 v).1 0))
              (t1.set (vpn_sv39 v).2.1 (entry_set_present
                (entry_set_address (t1.getD (vpn_sv39 v).2.1 0) f1))),
          pool := rest },
        .ok) := by
  have hlookne : memLookup ((f1, Table.empty) :: s.mem)
      (entry_address (s.root.getD (vpn_sv39 v).1 0)) = some t1 := by
    rw [memLookup_cons_ne _ _ _ _ hfresh, hlook]
  have hsetne : ∀ t : Table, memSet ((f1, Table.empty) :: s.mem)
      (entry_address (s.root.getD (vpn_sv39 v).1 0)) t =
      (f1, Table.empty) ::
        memSet s.mem (entry_address (s.root.getD (vpn_sv39 v).1 0)) t :=
    fun t => memSet_cons_ne _ _ _ _ _ hfresh
  unfold mapSv39
  dsimp only
  rw [mapWalkStep_present s (.rootIdx (vpn_sv39 v).1) (vpn_sv39 v).2.1 _ rfl
    hl2 hp2]
  dsimp only
  rw [mapWalkStep_alloc s _ (vpn_sv39 v).2.2 _ f1 rest
    (by dsimp only [readEntry]; rw [hlook]; rfl) hl1 hp1 hpool]
  simp only [writeEntry, readEntry, hlookne, hsetne, memLookup_cons_self,
    memSet_cons_self, Option.map_some', empty_getD, entry_present_zero,
    Bool.false_eq_true, reduceIte]

theorem mapSv39_oom2 (s : PTState) (v frame : Nat) (r : Rights) (fl : Flags)
    (hl2 : entry_is_leaf (s.root.getD (vpn_sv39 v).1 0) = false)
    (hp2 : entry_present (s.root.getD (vpn_sv39 v).1 0) = false)
    (hpool : s.pool = []) :
    mapSv39 s v frame r fl = (s, .err .OutOfMemory) := by
  unfold mapSv39
  dsimp only
  rw [mapWalkStep_oom s (.rootIdx (vpn_sv39 v).1) (vpn_sv39 v).2.1 _ rfl
    hl2 hp2 hpool]

theorem mapSv39_oom2_install (s : PTState) (v frame : Nat) (r : Rights)
    (fl : Flags) (f1 : Nat)
    (hl2 : entry_is_leaf (s.root.getD (vpn_sv39 v).1 0) = false)
    (hp2 : entry_present (s.root.getD (vpn_sv39 v).1 0) = false)
    (hpool : s.pool = [f1]) :
    mapSv39 s v frame r fl =
      ({ s with
          root := s.root.set (vpn_sv39 v).1 (entry_set_present
            (entry_set_address (s.root.getD (vpn_sv39 v).1 0) f1)),
          mem := (f1, Table.empty) :: s.mem,
          pool := [] },
        .err .OutOfMemory) := by
  unfold mapSv39
  dsimp only
  rw [mapWalkStep_alloc s (.rootIdx (vpn_sv39 v).1) (vpn_sv39 v).2.1 _ f1 []
    rfl hl2 hp2 hpool]
  dsimp only [writeEntry]
  rw [mapWalkStep_oom
    { s with
        root := s.root.set (vpn_sv39 v).1 (entry_set_present
          (entry_set_address (s.root.getD (vpn_sv39 v).1 0) f1)),
        mem := (f1, Table.empty) :: s.mem,
        pool := [] }
    (.tableIdx f1 (vpn_sv39 v).2.1) (vpn_sv39 v).2.2 0
    (by dsimp only [readEntry]; rw [memLookup_cons_self];
        dsimp only [Option.map]; rw [empty_getD])
    entry_is_leaf_zero entry_present_zero rfl]

theorem mapSv39_alloc2 (s : PTState) (v frame : Nat) (r : Rights) (fl : Flags)
    (f1 f2 : Nat) (rest : List Nat)
    (hl2 : entry_is_leaf (s.root.getD (vpn_sv39 v).1 0) = false)
    (hp2 : entry_present (s.root.getD (vpn_sv39 v).1 0) = false)
    (hpool : s.pool = f1 :: f2 :: rest)
    (hne : f2 ≠ f1) :
    mapSv39 s v frame r fl =
      ({ s with
          root := s.root.set (vpn_sv39 v).1 (entry_set_present
            (entry_set_address (s.root.getD (vpn_sv39 v).1 0) f1)),
          mem := (f2, Table.empty.set (vpn_sv39 v).2.2
              (mapLeafEntry 0 frame r fl)) ::
            (f1, Table.empty.set (vpn_sv39 v).2.1
              (entry_set_present (entry_set_address 0 f2))) :: s.mem,
          pool := rest },
        .ok) := by
  have hlookne : memLookup ((f2, Table.empty) :: (f1, Table.empty) :: s.mem)
      f1 = some Table.empty := by
    rw [memLookup_cons_ne _ _ _ _ hne, memLookup_cons_self]
  have hsetne : ∀ t : Table, memSet ((f2, Table.empty) :: (f1, Table.empty) ::
      s.mem) f1 t = (f2, Table.empty) ::
      memSet ((f1, Table.empty) :: s.mem) f1 t :=
    fun t => memSet_cons_ne _ _ _ _ _ hne
  unfold mapSv39
  dsimp only
  rw [mapWalkStep_alloc s (.rootIdx (vpn_sv39 v).1) (vpn_sv39 v).2.1 _ f1
    (f2 :: rest) rfl hl2 hp2 hpool]
  dsimp only [writeEntry]
  rw [mapWalkStep_alloc
    { s with
        root := s.root.set (vpn_sv39 v).1 (entry_set_present
          (entry_set_address (s.root.getD (vpn_sv39 v).1 0) f1)),
        mem := (f1, Table.empty) :: s.mem,
        pool := f2 :: rest }
    (.tableIdx f1 (vpn_sv39 v).2.1) (vpn_sv39 v).2.2 0 f2 rest
    (by dsimp only [readEntry]; rw [memLookup_cons_self];
        dsimp only [Option.map]; rw [empty_getD])
    entry_is_leaf_zero entry_present_zero rfl]
  simp only [writeEntry, readEntry, hlookne, hsetne, memLookup_cons_self,
    memSet_cons_self, Option.map_some', empty_getD, entry_present_zero,
    Bool.false_eq_true, reduceIte]


theorem memSet_memSet (m : TableMem) (k : Nat) (t1 t2 : Table) :
    memSet (memSet m k t1) k t2 = memSet m k t2 := by
  induction m with
  | nil => rfl
  | cons p rest ih =>
      obtain ⟨k1, t⟩ := p
      by_cases hk : k1 = k
      · subst hk
        rw [memSet_cons_self, memSet_cons_self, memSet_cons_self]
      · rw [memSet_cons_ne _ _ _ _ _ hk, memSet_cons_ne _ _ _ _ _ hk,
          memSet_cons_ne _ _ _ _ _ hk, ih]

theorem vpn_lt (v : Nat) : (vpn_sv39 v).1 < 512 ∧ (vpn_sv39 v).2.1 < 512 ∧
    (vpn_sv39 v).2.2 < 512 := by
  unfold vpn_sv39
  refine ⟨Nat.mod_lt _ (by norm_num), Nat.mod_lt _ (by norm_num),
    Nat.mod_lt _ (by norm_num)⟩

theorem empty_length : Table.empty.length = 512 := by
  simp [Table.empty]

theorem unmapSv39_eval (s : PTState) (v : Nat) (t1 t0 : Table)
    (hl2 : entry_is_leaf (s.root.getD (vpn_sv39 v).1 0) = false)
    (hp2 : entry_present (s.root.getD (vpn_sv39 v).1 0) = true)
    (hlook1 : memLookup s.mem (entry_address (s.root.getD (vpn_sv39 v).1 0)) =
      some t1)
    (hl1 : entry_is_leaf (t1.getD (vpn_sv39 v).2.1 0) = false)
    (hp1 : entry_present (t1.getD (vpn_sv39 v).2.1 0) = true)
    (hlook0 : memLookup s.mem (entry_address (t1.getD (vpn_sv39 v).2.1 0)) =
      some t0)
    (hleaf0 : entry_is_leaf (t0.getD (vpn_sv39 v).2.2 0) = true)
    (hp0 : entry_present (t0.getD (vpn_sv39 v).2.2 0) = true) :
    unmapSv39 s v =
      ({ s with
          mem := memSet s.mem (entry_address (t1.getD (vpn_sv39 v).2.1 0))
            (t0.set (vpn_sv39 v).2.2 0),
          flushes := v :: s.flushes },
        .ok (entry_address (t0.getD (vpn_sv39 v).2.2 0))) := by
  unfold unmapSv39
  dsimp only
  simp only [hl2, hp2, hlook1, hl1, hp1, hlook0, hleaf0, hp0, Bool.not_true,
    Bool.not_false, Bool.false_eq_true, reduceIte]


theorem roundtrip_case_c (s : PTState) (v frame : Nat) (r : Rights)
    (fl : Flags) (t1 t0 : Table)
    (hl2 : entry_is_leaf (s.root.getD (vpn_sv39 v).1 0) = false)
    (hp2 : entry_present (s.root.getD (vpn_sv39 v).1 0) = true)
    (hlook1 : memLookup s.mem (entry_address (s.root.getD (vpn_sv39 v).1 0)) =
      some t1)
    (hl1 : entry_is_leaf (t1.getD (vpn_sv39 v).2.1 0) = false)
    (hp1 : entry_present (t1.getD (vpn_sv39 v).2.1 0) = true)
    (hlook0 : memLookup s.mem (entry_address (t1.getD (vpn_sv39 v).2.1 0)) =
      some t0)
    (he0 : t0.getD (vpn_sv39 v).2.2 0 = 0)
    (hdistv : entry_address (t1.getD (vpn_sv39 v).2.1 0) ≠
      entry_address (s.root.getD (vpn_sv39 v).1 0))
    (hlen0 : t0.length = 512)
    (hrights : (r.read || r.write || r.execute) = true)
    (hal_frame : frame % 4096 = 0) :
    unmapSv39 (mapSv39 s v frame r fl).1 v =
      ({ s with flushes := v :: s.flushes }, .ok frame) := by
  have hv3 : (vpn_sv39 v).2.2 < 512 := (vpn_lt v).2.2
  have hE : (t0.set (vpn_sv39 v).2.2
      (mapLeafEntry (t0.getD (vpn_sv39 v).2.2 0) frame r fl)).getD
      (vpn_sv39 v).2.2 0 = mapLeafEntry (t0.getD (vpn_sv39 v).2.2 0) frame r fl :=
    getD_set_self _ _ _ (by rw [hlen0]; exact hv3)
  rw [mapSv39_l0_write s v frame r fl t1 t0 hl2 hp2 hlook1 hl1 hp1 hlook0
    (by rw [he0]; rfl)]
  dsimp only
  rw [unmapSv39_eval
    { s with
        mem := memSet s.mem (entry_address (t1.getD (vpn_sv39 v).2.1 0))
          (t0.set (vpn_sv39 v).2.2
            (mapLeafEntry (t0.getD (vpn_sv39 v).2.2 0) frame r fl)) }
    v t1
    (t0.set (vpn_sv39 v).2.2 (mapLeafEntry (t0.getD (vpn_sv39 v).2.2 0) frame r fl))
    hl2 hp2
    (by rw [show ({ s with
        mem := memSet s.mem (entry_address (t1.getD (vpn_sv39 v).2.1 0))
          (t0.set (vpn_sv39 v).2.2
            (mapLeafEntry (t0.getD (vpn_sv39 v).2.2 0) frame r fl)) } : PTState).mem
        = memSet s.mem (entry_address (t1.getD (vpn_sv39 v).2.1 0))
          (t0.set (vpn_sv39 v).2.2
            (mapLeafEntry (t0.getD (vpn_sv39 v).2.2 0) frame r fl)) from rfl,
      memLookup_memSet_ne _ _ _ _ hdistv]; exact hlook1)
    hl1 hp1
    (memLookup_memSet_self _ _ _ _ hlook0)
    (by rw [hE, mapLeafEntry_is_leaf]; exact hrights)
    (by rw [hE]; exact mapLeafEntry_present _ _ _ _)]
  rw [hE, mapLeafEntry_address _ _ _ _ hal_frame]
  rw [List.set_set, set_zero_id t0 _ he0, memSet_memSet,
    memSet_id _ _ _ hlook0]


theorem roundtrip_case_b (s : PTState) (v frame : Nat) (r : Rights)
    (fl : Flags) (t1 : Table) (f1 : Nat) (rest : List Nat)
    (hl2 : entry_is_leaf (s.root.getD (vpn_sv39 v).1 0) = false)
    (hp2 : entry_present (s.root.getD (vpn_sv39 v).1 0) = true)
    (hlook1 : memLookup s.mem (entry_address (s.root.getD (vpn_sv39 v).1 0)) =
      some t1)
    (hl1 : entry_is_leaf (t1.getD (vpn_sv39 v).2.1 0) = false)
    (hp1 : entry_present (t1.getD (vpn_sv39 v).2.1 0) = false)
    (hpool : s.pool = f1 :: rest)
    (hfr : f1 ≠ entry_address (s.root.getD (vpn_sv39 v).1 0))
    (hal1 : f1 % 4096 = 0)
    (hlen1 : t1.length = 512)
    (hrights : (r.read || r.write || r.execute) = true)
    (hal_frame : frame % 4096 = 0) :
    unmapSv39 (mapSv39 s v frame r fl).1 v =
      ({ s with
          mem := (f1, Table.empty) ::
            memSet s.mem (entry_address (s.root.getD (vpn_sv39 v).1 0))
              (t1.set (vpn_sv39 v).2.1 (entry_set_present
                (entry_set_address (t1.getD (vpn_sv39 v).2.1 0) f1))),
          pool := rest,
          flushes := v :: s.flushes },
        .ok frame) := by
  have hv2 : (vpn_sv39 v).2.1 < 512 := (vpn_lt v).2.1
  have hv3 : (vpn_sv39 v).2.2 < 512 := (vpn_lt v).2.2
  have hE1 : (t1.set (vpn_sv39 v).2.1 (entry_set_present
      (entry_set_address (t1.getD (vpn_sv39 v).2.1 0) f1))).getD
      (vpn_sv39 v).2.1 0 = entry_set_present
      (entry_set_address (t1.getD (vpn_sv39 v).2.1 0) f1) :=
    getD_set_self _ _ _ (by rw [hlen1]; exact hv2)
  have hE0 : (Table.empty.set (vpn_sv39 v).2.2
      (mapLeafEntry 0 frame r fl)).getD (vpn_sv39 v).2.2 0 =
      mapLeafEntry 0 frame r fl :=
    getD_set_self _ _ _ (by rw [empty_length]; exact hv3)
  have hb1 : memLookup
      ((f1, Table.empty.set (vpn_sv39 v).2.2 (mapLeafEntry 0 frame r fl)) ::
        memSet s.mem (entry_address (s.root.getD (vpn_sv39 v).1 0))
          (t1.set (vpn_sv39 v).2.1 (entry_set_present
            (entry_set_address (t1.getD (vpn_sv39 v).2.1 0) f1))))
      (entry_address (s.root.getD (vpn_sv39 v).1 0)) =
      some (t1.set (vpn_sv39 v).2.1 (entry_set_present
        (entry_set_address (t1.getD (vpn_sv39 v).2.1 0) f1))) := by
    rw [memLookup_cons_ne _ _ _ _ hfr]
    exact memLookup_memSet_self _ _ _ _ hlook1
  have hb2 : entry_is_leaf ((t1.set (vpn_sv39 v).2.1 (entry_set_present
      (entry_set_address (t1.getD (vpn_sv39 v).2.1 0) f1))).getD
      (vpn_sv39 v).2.1 0) = false := by
    rw [hE1]
    exact link_not_leaf _ _ hp1 hl1
  have hb3 : entry_present ((t1.set (vpn_sv39 v).2.1 (entry_set_present
      (entry_set_address (t1.getD (vpn_sv39 v).2.1 0) f1))).getD
      (vpn_sv39 v).2.1 0) = true := by
    rw [hE1]
    exact link_present _ _ hp1
  have hb4 : memLookup
      ((f1, Table.empty.set (vpn_sv39 v).2.2 (mapLeafEntry 0 frame r fl)) ::
        memSet s.mem (entry_address (s.root.getD (vpn_sv39 v).1 0))
          (t1.set (vpn_sv39 v).2.1 (entry_set_present
            (entry_set_address (t1.getD (vpn_sv39 v).2.1 0) f1))))
      (entry_address ((t1.set (vpn_sv39 v).2.1 (entry_set_present
        (entry_set_address (t1.getD (vpn_sv39 v).2.1 0) f1))).getD
        (vpn_sv39 v).2.1 0)) =
      some (Table.empty.set (vpn_sv39 v).2.2 (mapLeafEntry 0 frame r fl)) := by
    rw [hE1, link_address _ _ hp1 hal1]
    exact memLookup_cons_self _ _ _
  have hb5 : entry_is_leaf ((Table.empty.set (vpn_sv39 v).2.2
      (mapLeafEntry 0 frame r fl)).getD (vpn_sv39 v).2.2 0) = true := by
    rw [hE0, mapLeafEntry_is_leaf]
    exact hrights
  have hb6 : entry_present ((Table.empty.set (vpn_sv39 v).2.2
      (mapLeafEntry 0 frame r fl)).getD (vpn_sv39 v).2.2 0) = true := by
    rw [hE0]
    exact mapLeafEntry_present _ _ _ _
  rw [mapSv39_alloc1 s v frame r fl t1 f1 rest hl2 hp2 hlook1 hl1 hp1 hpool hfr]
  dsimp only
  rw [unmapSv39_eval
    { s with
        mem := (f1, Table.empty.set (vpn_sv39 v).2.2
            (mapLeafEntry 0 frame r fl)) ::
          memSet s.mem (entry_address (s.root.getD (vpn_sv39 v).1 0))
            (t1.set (vpn_sv39 v).2.1 (entry_set_present
              (entry_set_address (t1.getD (vpn_sv39 v).2.1 0) f1))),
        pool := rest }
    v
    (t1.set (vpn_sv39 v).2.1 (entry_set_present
      (entry_set_address (t1.getD (vpn_sv39 v).2.1 0) f1)))
    (Table.empty.set (vpn_sv39 v).2.2 (mapLeafEntry 0 frame r fl))
    hl2 hp2 hb1 hb2 hb3 hb4 hb5 hb6]
  rw [hE0, mapLeafEntry_address _ _ _ _ hal_frame]
  rw [hE1, link_address _ _ hp1 hal1]
  rw [List.set_set, set_zero_id _ _ (empty_getD _), memSet_cons_self]


theorem roundtrip_case_a (s : PTState) (v frame : Nat) (r : Rights)
    (fl : Flags) (f1 f2 : Nat) (rest : List Nat)
    (hl2 : entry_is_leaf (s.root.getD (vpn_sv39 v).1 0) = false)
    (hp2 : entry_present (s.root.getD (vpn_sv39 v).1 0) = false)
    (hpool : s.pool = f1 :: f2 :: rest)
    (hne : f2 ≠ f1)
    (hal1 : f1 % 4096 = 0)
    (hal2 : f2 % 4096 = 0)
    (hroot : s.root.length = 512)
    (hrights : (r.read || r.write || r.execute) = true)
    (hal_frame : frame % 4096 = 0) :
    unmapSv39 (mapSv39 s v frame r fl).1 v =
      ({ s with
          root := s.root.set (vpn_sv39 v).1 (entry_set_present
            (entry_set_address (s.root.getD (vpn_sv39 v).1 0) f1)),
          mem := (f2, Table.empty) ::
            (f1, Table.empty.set (vpn_sv39 v).2.1
              (entry_set_present (entry_set_address 0 f2))) :: s.mem,
          pool := rest,
          flushes := v :: s.flushes },
        .ok frame) := by
  have hv1 : (vpn_sv39 v).1 < 512 := (vpn_lt v).1
  have hv2 : (vpn_sv39 v).2.1 < 512 := (vpn_lt v).2.1
  have hv3 : (vpn_sv39 v).2.2 < 512 := (vpn_lt v).2.2
  have hE2 : (s.root.set (vpn_sv39 v).1 (entry_set_present
      (entry_set_address (s.root.getD (vpn_sv39 v).1 0) f1))).getD
      (vpn_sv39 v).1 0 = entry_set_present
      (entry_set_address (s.root.getD (vpn_sv39 v).1 0) f1) :=
    getD_set_self _ _ _ (by rw [hroot]; exact hv1)
  have hE1 : (Table.empty.set (vpn_sv39 v).2.1
      (entry_set_present (entry_set_address 0 f2))).getD (vpn_sv39 v).2.1 0 =
      entry_set_present (entry_set_address 0 f2) :=
    getD_set_self _ _ _ (by rw [empty_length]; exact hv2)
  have hE0 : (Table.empty.set (vpn_sv39 v).2.2
      (mapLeafEntry 0 frame r fl)).getD (vpn_sv39 v).2.2 0 =
      mapLeafEntry 0 frame r fl :=
    getD_set_self _ _ _ (by rw [empty_length]; exact hv3)
  have ha0 : entry_is_leaf ((s.root.set (vpn_sv39 v).1 (entry_set_present
      (entry_set_address (s.root.getD (vpn_sv39 v).1 0) f1))).getD
      (vpn_sv39 v).1 0) = false := by
    rw [hE2]
    exact link_not_leaf _ _ hp2 hl2
  have ha1 : entry_present ((s.root.set (vpn_sv39 v).1 (entry_set_present
      (entry_set_address (s.root.getD (vpn_sv39 v).1 0) f1))).getD
      (vpn_sv39 v).1 0) = true := by
    rw [hE2]
    exact link_present _ _ hp2
  have ha2 : memLookup
      ((f2, Table.empty.set (vpn_sv39 v).2.2 (mapLeafEntry 0 frame r fl)) ::
        (f1, Table.empty.set (vpn_sv39 v).2.1
          (entry_set_present (entry_set_address 0 f2))) :: s.mem)
      (entry_address ((s.root.set (vpn_sv39 v).1 (entry_set_present
        (entry_set_address (s.root.getD (vpn_sv39 v).1 0) f1))).getD
        (vpn_sv39 v).1 0)) =
      some (Table.empty.set (vpn_sv39 v).2.1
        (entry_set_present (entry_set_address 0 f2))) := by
    rw [hE2, link_address _ _ hp2 hal1, memLookup_cons_ne _ _ _ _ hne]
    exact memLookup_cons_self _ _ _
  have ha3 : entry_is_leaf ((Table.empty.set (vpn_sv39 v).2.1
      (entry_set_present (entry_set_address 0 f2))).getD
      (vpn_sv39 v).2.1 0) = false := by
    rw [hE1]
    exact link_not_leaf _ _ entry_present_zero entry_is_leaf_zero
  have ha4 : entry_present ((Table.empty.set (vpn_sv39 v).2.1
      (entry_set_present (entry_set_address 0 f2))).getD
      (vpn_sv39 v).2.1 0) = true := by
    rw [hE1]
    exact link_present _ _ entry_present_zero
  have ha5 : memLookup
      ((f2, Table.empty.set (vpn_sv39 v).2.2 (mapLeafEntry 0 frame r fl)) ::
        (f1, Table.empty.set (vpn_sv39 v).2.1
          (entry_set_present (entry_set_address 0 f2))) :: s.mem)
      (entry_address ((Table.empty.set (vpn_sv39 v).2.1
        (entry_set_present (entry_set_address 0 f2))).getD
        (vpn_sv39 v).2.1 0)) =
      some (Table.empty.set (vpn_sv39 v).2.2 (mapLeafEntry 0 frame r fl)) := by
    rw [hE1, link_address _ _ entry_present_zero hal2]
    exact memLookup_cons_self _ _ _
  have ha6 : entry_is_leaf ((Table.empty.set (vpn_sv39 v).2.2
      (mapLeafEntry 0 frame r fl)).getD (vpn_sv39 v).2.2 0) = true := by
    rw [hE0, mapLeafEntry_is_leaf]
    exact hrights
  have ha7 : entry_present ((Table.empty.set (vpn_sv39 v).2.2
      (mapLeafEntry 0 frame r fl)).getD (vpn_sv39 v).2.2 0) = true := by
    rw [hE0]
    exact mapLeafEntry_present _ _ _ _
  rw [mapSv39_alloc2 s v frame r fl f1 f2 rest hl2 hp2 hpool hne]
  dsimp only
  rw [unmapSv39_eval
    { s with
        root := s.root.set (vpn_sv39 v).1 (entry_set_present
          (entry_set_address (s.root.getD (vpn_sv39 v).1 0) f1)),
        mem := (f2, Table.empty.set (vpn_sv39 v).2.2
            (mapLeafEntry 0 frame r fl)) ::
          (f1, Table.empty.set (vpn_sv39 v).2.1
            (entry_set_present (entry_set_address 0 f2))) :: s.mem,
        pool := rest }
    v
    (Table.empty.set (vpn_sv39 v).2.1
      (entry_set_present (entry_set_address 0 f2)))
    (Table.empty.set (vpn_sv39 v).2.2 (mapLeafEntry 0 frame r fl))
    ha0 ha1 ha2 ha3 ha4 ha5 ha6 ha7]
  rw [hE0, mapLeafEntry_address _ _ _ _ hal_frame]
  rw [hE1, link_address _ _ entry_present_zero hal2]
  rw [List.set_set, set_zero_id _ _ (empty_getD _), memSet_cons_self]


/-- C3: Map/unmap round trip.  If the SV39 walk of `v` in the initial
state meets no leaf and the level-0 entry is missing, and `map` of the
4 KiB frame succeeds, then `unmap` at the same address returns exactly
that frame, records the single `sfence_vma` flush of the unmap, and
leaves the tables bit-identical to their pre-map state except that the
intermediate tables the map had to install remain present, each holding
only the link entry written into it. -/
theorem C3_map_unmap_roundtrip (s : PTState) (v frame : Nat) (r : Rights)
    (fl : Flags)
    (hroot : s.root.length = 512)
    (hmemWf : ∀ k t, memLookup s.mem k = some t → t.length = 512)
    (hal_frame : frame % 4096 = 0)
    (hclear : walkClearCond s v = true)
    (hpath : pathOk s v = true)
    (hdist : pathDistinct s v = true)
    (hfresh : ∀ f ∈ s.pool, memLookup s.mem f = none)
    (hal : ∀ f ∈ s.pool, f % 4096 = 0)
    (hnodup : s.pool.Nodup)
    (hrights : (r.read || r.write || r.execute) = true)
    (hok : (mapSv39 s v frame r fl).2 = .ok) :
    unmapSv39 (mapSv39 s v frame r fl).1 v =
      ({ roundTripExpected s v with flushes := v :: s.flushes }, .ok frame) := by
  cases hl2 : entry_is_leaf (s.root.getD (vpn_sv39 v).1 0) with
  | true =>
      simp only [walkClearCond, hl2, reduceIte, Bool.false_eq_true] at hclear
  | false =>
  cases hp2 : entry_present (s.root.getD (vpn_sv39 v).1 0) with
  | true =>
      cases hlook1 : memLookup s.mem
          (entry_address (s.root.getD (vpn_sv39 v).1 0)) with
      | none =>
          simp only [pathOk, hp2, hl2, hlook1, Bool.not_false, Bool.and_self,
            reduceIte, Bool.false_eq_true] at hpath
      | some t1 =>
      cases hl1 : entry_is_leaf (t1.getD (vpn_sv39 v).2.1 0) with
      | true =>
          simp only [walkClearCond, hl2, hp2, hlook1, hl1, Bool.not_true,
            Bool.false_eq_true, reduceIte] at hclear
      | false =>
      cases hp1 : entry_present (t1.getD (vpn_sv39 v).2.1 0) with
      | true =>
          cases hlook0 : memLookup s.mem
              (entry_address (t1.getD (vpn_sv39 v).2.1 0)) with
          | none =>
              simp only [pathOk, hp2, hl2, hl1, hp1, hlook1, hlook0,
                Bool.not_false, Bool.and_self, reduceIte, Option.isSome_none,
                Bool.false_eq_true] at hpath
          | some t0 =>
              have he0 : t0.getD (vpn_sv39 v).2.2 0 = 0 := by
                simpa only [walkClearCond, hl2, hp2, hlook1, hl1, hp1, hlook0,
                  Bool.not_true, Bool.not_false, Bool.false_eq_true, reduceIte,
                  decide_eq_true_eq] using hclear
              have hdistv : entry_address (t1.getD (vpn_sv39 v).2.1 0) ≠
                  entry_address (s.root.getD (vpn_sv39 v).1 0) := by
                simpa only [pathDistinct, hl2, hp2, hlook1, hl1, hp1,
                  Bool.not_false, Bool.and_self, reduceIte,
                  decide_eq_true_eq] using hdist
              have hRTE : roundTripExpected s v = s := by
                simp only [roundTripExpected, hp2, hlook1, hp1, reduceIte]
              rw [hRTE]
              exact roundtrip_case_c s v frame r fl t1 t0 hl2 hp2 hlook1 hl1
                hp1 hlook0 he0 hdistv (hmemWf _ _ hlook0) hrights hal_frame
      | false =>
          cases hpool : s.pool with
          | nil =>
              rw [mapSv39_oom1 s v frame r fl t1 hl2 hp2 hlook1 hl1 hp1
                hpool] at hok
              exact absurd hok (by simp)
          | cons f1 rest =>
              have hf1 : f1 ∈ s.pool := by
                rw [hpool]; exact List.mem_cons_self _ _
              have hfr : f1 ≠ entry_address (s.root.getD (vpn_sv39 v).1 0) := by
                intro h
                have := hfresh f1 hf1
                rw [h, hlook1] at this
                cases this
              have hRTE : roundTripExpected s v =
                  { s with
                      mem := (f1, Table.empty) ::
                        memSet s.mem
                          (entry_address (s.root.getD (vpn_sv39 v).1 0))
                          (t1.set (vpn_sv39 v).2.1 (entry_set_present
                            (entry_set_address (t1.getD (vpn_sv39 v).2.1 0)
                              f1))),
                      pool := rest } := by
                simp only [roundTripExpected, hp2, hlook1, hp1, hpool,
                  Bool.false_eq_true, reduceIte]
              rw [hRTE]
              exact roundtrip_case_b s v frame r fl t1 f1 rest hl2 hp2 hlook1
                hl1 hp1 hpool hfr (hal f1 hf1) (hmemWf _ _ hlook1) hrights
                hal_frame
  | false =>
      cases hpool : s.pool with
      | nil =>
          rw [mapSv39_oom2 s v frame r fl hl2 hp2 hpool] at hok
          exact absurd hok (by simp)
      | cons f1 rest1 =>
      cases rest1 with
      | nil =>
          rw [mapSv39_oom2_install s v frame r fl f1 hl2 hp2 hpool] at hok
          exact absurd hok (by simp)
      | cons f2 rest =>
          have hne : f2 ≠ f1 := by
            rw [hpool, List.nodup_cons] at hnodup
            intro h
            exact hnodup.1 (by rw [h]; exact List.mem_cons_self _ _)
          have hf1 : f1 ∈ s.pool := by
            rw [hpool]; exact List.mem_cons_self _ _
          have hf2 : f2 ∈ s.pool := by
            rw [hpool]; exact List.mem_cons_of_mem _ (List.mem_cons_self _ _)
          have hRTE : roundTripExpected s v =
              { s with
                  root := s.root.set (vpn_sv39 v).1 (entry_set_present
                    (entry_set_address (s.root.getD (vpn_sv39 v).1 0) f1)),
                  mem := (f2, Table.empty) ::
                    (f1, Table.empty.set (vpn_sv39 v).2.1
                      (entry_set_present (entry_set_address 0 f2))) :: s.mem,
                  pool := rest } := by
            simp only [roundTripExpected, hp2, hpool, Bool.false_eq_true,
              reduceIte]
          rw [hRTE]
          exact roundtrip_case_a s v frame r fl f1 f2 rest hl2 hp2 hpool hne
            (hal f1 hf1) (hal f2 hf2) hroot hrights hal_frame


theorem readLevel0_eval (s : PTState) (v : Nat) (t1 t0 : Table)
    (hl2 : entry_is_leaf (s.root.getD (vpn_sv39 v).1 0) = false)
    (hp2 : entry_present (s.root.getD (vpn_sv39 v).1 0) = true)
    (hlook1 : memLookup s.mem (entry_address (s.root.getD (vpn_sv39 v).1 0)) =
      some t1)
    (hl1 : entry_is_leaf (t1.getD (vpn_sv39 v).2.1 0) = false)
    (hp1 : entry_present (t1.getD (vpn_sv39 v).2.1 0) = true)
    (hlook0 : memLookup s.mem (entry_address (t1.getD (vpn_sv39 v).2.1 0)) =
      some t0) :
    readLevel0 s v = some (t0.getD (vpn_sv39 v).2.2 0) := by
  unfold readLevel0
  dsimp only
  simp only [hl2, hp2, hlook1, hl1, hp1, hlook0, Bool.not_true,
    Bool.false_eq_true, reduceIte]

theorem poolLen_nil_zero : (decide ((([]) : List Nat).length = 0)) = true := by
  decide

theorem poolLen_nil_or : (decide ((([]) : List Nat).length = 0) ||
    decide ((([]) : List Nat).length = 1)) = true := by
  decide

theorem poolLen_one_or (a : Nat) : (decide (([a] : List Nat).length = 0) ||
    decide (([a] : List Nat).length = 1)) = true := by
  simp

theorem poolLen_cons_zero (a : Nat) (l : List Nat) :
    (decide ((a :: l).length = 0)) = false := by
  simp

theorem poolLen_cons2_or (a b : Nat) (l : List Nat) :
    (decide ((a :: b :: l).length = 0) ||
      decide ((a :: b :: l).length = 1)) = false := by
  simp


theorem readLevel0_after_c (s : PTState) (v frame : Nat) (r : Rights)
    (fl : Flags) (t1 t0 : Table)
    (hl2 : entry_is_leaf (s.root.getD (vpn_sv39 v).1 0) = false)
    (hp2 : entry_present (s.root.getD (vpn_sv39 v).1 0) = true)
    (hlook1 : memLookup s.mem (entry_address (s.root.getD (vpn_sv39 v).1 0)) =
      some t1)
    (hl1 : entry_is_leaf (t1.getD (vpn_sv39 v).2.1 0) = false)
    (hp1 : entry_present (t1.getD (vpn_sv39 v).2.1 0) = true)
    (hlook0 : memLookup s.mem (entry_address (t1.getD (vpn_sv39 v).2.1 0)) =
      some t0)
    (he0p : entry_present (t0.getD (vpn_sv39 v).2.2 0) = false)
    (hdistv : entry_address (t1.getD (vpn_sv39 v).2.1 0) ≠
      entry_address (s.root.getD (vpn_sv39 v).1 0))
    (hlen0 : t0.length = 512) :
    readLevel0 (mapSv39 s v frame r fl).1 v =
      some (mapLeafEntry (t0.getD (vpn_sv39 v).2.2 0) frame r fl) := by
  have hv3 : (vpn_sv39 v).2.2 < 512 := (vpn_lt v).2.2
  rw [mapSv39_l0_write s v frame r fl t1 t0 hl2 hp2 hlook1 hl1 hp1 hlook0 he0p]
  dsimp only
  rw [readLevel0_eval
    { s with
        mem := memSet s.mem (entry_address (t1.getD (vpn_sv39 v).2.1 0))
          (t0.set (vpn_sv39 v).2.2
            (mapLeafEntry (t0.getD (vpn_sv39 v).2.2 0) frame r fl)) }
    v t1
    (t0.set (vpn_sv39 v).2.2 (mapLeafEntry (t0.getD (vpn_sv39 v).2.2 0) frame r fl))
    hl2 hp2
    (by rw [show ({ s with
        mem := memSet s.mem (entry_address (t1.getD (vpn_sv39 v).2.1 0))
          (t0.set (vpn_sv39 v).2.2
            (mapLeafEntry (t0.getD (vpn_sv39 v).2.2 0) frame r fl)) } : PTState).mem
        = memSet s.mem (entry_address (t1.getD (vpn_sv39 v).2.1 0))
          (t0.set (vpn_sv39 v).2.2
            (mapLeafEntry (t0.getD (vpn_sv39 v).2.2 0) frame r fl)) from rfl,
      memLookup_memSet_ne _ _ _ _ hdistv]; exact hlook1)
    hl1 hp1
    (memLookup_memSet_self _ _ _ _ hlook0)]
  rw [getD_set_self _ _ _ (by rw [hlen0]; exact hv3)]

theorem readLevel0_after_b (s : PTState) (v frame : Nat) (r : Rights)
    (fl : Flags) (t1 : Table) (f1 : Nat) (rest : List Nat)
    (hl2 : entry_is_leaf (s.root.getD (vpn_sv39 v).1 0) = false)
    (hp2 : entry_present (s.root.getD (vpn_sv39 v).1 0) = true)
    (hlook1 : memLookup s.mem (entry_address (s.root.getD (vpn_sv39 v).1 0)) =
      some t1)
    (hl1 : entry_is_leaf (t1.getD (vpn_sv39 v).2.1 0) = false)
    (hp1 : entry_present (t1.getD (vpn_sv39 v).2.1 0) = false)
    (hpool : s.pool = f1 :: rest)
    (hfr : f1 ≠ entry_address (s.root.getD (vpn_sv39 v).1 0))
    (hal1 : f1 % 4096 = 0)
    (hlen1 : t1.length = 512) :
    readLevel0 (mapSv39 s v frame r fl).1 v =
      some (mapLeafEntry 0 frame r fl) := by
  have hv2 : (vpn_sv39 v).2.1 < 512 := (vpn_lt v).2.1
  have hv3 : (vpn_sv39 v).2.2 < 512 := (vpn_lt v).2.2
  have hE1 : (t1.set (vpn_sv39 v).2.1 (entry_set_present
      (entry_set_address (t1.getD (vpn_sv39 v).2.1 0) f1))).getD
      (vpn_sv39 v).2.1 0 = entry_set_present
      (entry_set_address (t1.getD (vpn_sv39 v).2.1 0) f1) :=
    getD_set_self _ _ _ (by rw [hlen1]; exact hv2)
  have hb1 : memLookup
      ((f1, Table.empty.set (vpn_sv39 v).2.2 (mapLeafEntry 0 frame r fl)) ::
        memSet s.mem (entry_address (s.root.getD (vpn_sv39 v).1 0))
          (t1.set (vpn_sv39 v).2.1 (entry_set_present
            (entry_set_address (t1.getD (vpn_sv39 v).2.1 0) f1))))
      (entry_address (s.root.getD (vpn_sv39 v).1 0)) =
      some (t1.set (vpn_sv39 v).2.1 (entry_set_present
        (entry_set_address (t1.getD (vpn_sv39 v).2.1 0) f1))) := by
    rw [memLookup_cons_ne _ _ _ _ hfr]
    exact memLookup_memSet_self _ _ _ _ hlook1
  have hb2 : entry_is_leaf ((t1.set (vpn_sv39 v).2.1 (entry_set_present
      (entry_set_address (t1.getD (vpn_sv39 v).2.1 0) f1))).getD
      (vpn_sv39 v).2.1 0) = false := by
    rw [hE1]
    exact link_not_leaf _ _ hp1 hl1
  have hb3 : entry_present ((t1.set (vpn_sv39 v).2.1 (entry_set_present
      (entry_set_address (t1.getD (vpn_sv39 v).2.1 0) f1))).getD
      (vpn_sv39 v).2.1 0) = true := by
    rw [hE1]
    exact link_present _ _ hp1
  have hb4 : memLookup
      ((f1, Table.empty.set (vpn_sv39 v).2.2 (mapLeafEntry 0 frame r fl)) ::
        memSet s.mem (entry_address (s.root.getD (vpn_sv39 v).1 0))
          (t1.set (vpn_sv39 v).2.1 (entry_set_present
            (entry_set_address (t1.getD (vpn_sv39 v).2.1 0) f1))))
      (entry_address ((t1.set (vpn_sv39 v).2.1 (entry_set_present
        (entry_set_address (t1.getD (vpn_sv39 v).2.1 0) f1))).getD
        (vpn_sv39 v).2.1 0)) =
      some (Table.empty.set (vpn_sv39 v).2.2 (mapLeafEntry 0 frame r fl)) := by
    rw [hE1, link_address _ _ hp1 hal1]
    exact memLookup_cons_self _ _ _
  rw [mapSv39_alloc1 s v frame r fl t1 f1 rest hl2 hp2 hlook1 hl1 hp1 hpool hfr]
  dsimp only
  rw [readLevel0_eval
    { s with
        mem := (f1, Table.empty.set (vpn_sv39 v).2.2
            (mapLeafEntry 0 frame r fl)) ::
          memSet s.mem (entry_address (s.root.getD (vpn_sv39 v).1 0))
            (t1.set (vpn_sv39 v).2.1 (entry_set_present
              (entry_set_address (t1.getD (vpn_sv39 v).2.1 0) f1))),
        pool := rest }
    v
    (t1.set (vpn_sv39 v).2.1 (entry_set_present
      (entry_set_address (t1.getD (vpn_sv39 v).2.1 0) f1)))
    (Table.empty.set (vpn_sv39 v).2.2 (mapLeafEntry 0 frame r fl))
    hl2 hp2 hb1 hb2 hb3 hb4]
  rw [getD_set_self _ _ _ (by rw [empty_length]; exact hv3)]

theorem readLevel0_after_a (s : PTState) (v frame : Nat) (r : Rights)
    (fl : Flags) (f1 f2 : Nat) (rest : List Nat)
    (hl2 : entry_is_leaf (s.root.getD (vpn_sv39 v).1 0) = false)
    (hp2 : entry_present (s.root.getD (vpn_sv39 v).1 0) = false)
    (hpool : s.pool = f1 :: f2 :: rest)
    (hne : f2 ≠ f1)
    (hal1 : f1 % 4096 = 0)
    (hal2 : f2 % 4096 = 0)
    (hroot : s.root.length = 512) :
    readLevel0 (mapSv39 s v frame r fl).1 v =
      some (mapLeafEntry 0 frame r fl) := by
  have hv1 : (vpn_sv39 v).1 < 512 := (vpn_lt v).1
  have hv2 : (vpn_sv39 v).2.1 < 512 := (vpn_lt v).2.1
  have hv3 : (vpn_sv39 v).2.2 < 512 := (vpn_lt v).2.2
  have hE2 : (s.root.set (vpn_sv39 v).1 (entry_set_present
      (entry_set_address (s.root.getD (vpn_sv39 v).1 0) f1))).getD
      (vpn_sv39 v).1 0 = entry_set_present
      (entry_set_address (s.root.getD (vpn_sv39 v).1 0) f1) :=
    getD_set_self _ _ _ (by rw [hroot]; exact hv1)
  have hE1 : (Table.empty.set (vpn_sv39 v).2.1
      (entry_set_present (entry_set_address 0 f2))).getD (vpn_sv39 v).2.1 0 =
      entry_set_present (entry_set_address 0 f2) :=
    getD_set_self _ _ _ (by rw [empty_length]; exact hv2)
  have ha0 : entry_is_leaf ((s.root.set (vpn_sv39 v).1 (entry_set_present
      (entry_set_address (s.root.getD (vpn_sv39 v).1 0) f1))).getD
      (vpn_sv39 v).1 0) = false := by
    rw [hE2]
    exact link_not_leaf _ _ hp2 hl2
  have ha1 : entry_present ((s.root.set (vpn_sv39 v).1 (entry_set_present
      (entry_set_address (s.root.getD (vpn_sv39 v).1 0) f1))).getD
      (vpn_sv39 v).1 0) = true := by
    rw [hE2]
    exact link_present _ _ hp2
  have ha2 : memLookup
      ((f2, Table.empty.set (vpn_sv39 v).2.2 (mapLeafEntry 0 frame r fl)) ::
        (f1, Table.empty.set (vpn_sv39 v).2.1
          (entry_set_present (entry_set_address 0 f2))) :: s.mem)
      (entry_address ((s.root.set (vpn_sv39 v).1 (entry_set_present
        (entry_set_address (s.root.getD (vpn_sv39 v).1 0) f1))).getD
        (vpn_sv39 v).1 0)) =
      some (Table.empty.set (vpn_sv39 v).2.1
        (entry_set_present (entry_set_address 0 f2))) := by
    rw [hE2, link_address _ _ hp2 hal1, memLookup_cons_ne _ _ _ _ hne]
    exact memLookup_cons_self _ _ _
  have ha3 : entry_is_leaf ((Table.empty.set (vpn_sv39 v).2.1
      (entry_set_present (entry_set_address 0 f2))).getD
      (vpn_sv39 v).2.1 0) = false := by
    rw [hE1]
    exact link_not_leaf _ _ entry_present_zero entry_is_leaf_zero
  have ha4 : entry_present ((Table.empty.set (vpn_sv39 v).2.1
      (entry_set_present (entry_set_address 0 f2))).getD
      (vpn_sv39 v).2.1 0) = true := by
    rw [hE1]
    exact link_present _ _ entry_present_zero
  have ha5 : memLookup
      ((f2, Table.empty.set (vpn_sv39 v).2.2 (mapLeafEntry 0 frame r fl)) ::
        (f1, Table.empty.set (vpn_sv39 v).2.1
          (entry_set_present (entry_set_address 0 f2))) :: s.mem)
      (entry_address ((Table.empty.set (vpn_sv39 v).2.1
        (entry_set_present (entry_set_address 0 f2))).getD
        (vpn_sv39 v).2.1 0)) =
      some (Table.empty.set (vpn_sv39 v).2.2 (mapLeafEntry 0 frame r fl)) := by
    rw [hE1, link_address _ _ entry_present_zero hal2]
    exact memLookup_cons_self _ _ _
  rw [mapSv39_alloc2 s v frame r fl f1 f2 rest hl2 hp2 hpool hne]
  dsimp only
  rw [readLevel0_eval
    { s with
        root := s.root.set (vpn_sv39 v).1 (entry_set_present
          (entry_set_address (s.root.getD (vpn_sv39 v).1 0) f1)),
        mem := (f2, Table.empty.set (vpn_sv39 v).2.2
            (mapLeafEntry 0 frame r fl)) ::
          (f1, Table.empty.set (vpn_sv39 v).2.1
            (entry_set_present (entry_set_address 0 f2))) :: s.mem,
        pool := rest }
    v
    (Table.empty.set (vpn_sv39 v).2.1
      (entry_set_present (entry_set_address 0 f2)))
    (Table.empty.set (vpn_sv39 v).2.2 (mapLeafEntry 0 frame r fl))
    ha0 ha1 ha2 ha3 ha4 ha5]
  rw [getD_set_self _ _ _ (by rw [empty_length]; exact hv3)]


/-- C4: Map error conditions.  `map` reports `AlreadyMapped` exactly
when the walk meets a leaf at level 2 or level 1 or the level-0 entry
is present; it reports `OutOfMemory` exactly when an intermediate table
is missing and the frame allocator cannot supply it, leaving the tables
allocated before the failure installed; otherwise it succeeds, the
level-0 entry the walk then reaches holds the requested frame, rights
(R/W/X/U), flags (G) and the present bit; and no path flushes the
TLB. -/
theorem C4_map_error_conditions (s : PTState) (v frame : Nat) (r : Rights)
    (fl : Flags)
    (hroot : s.root.length = 512)
    (hmemWf : ∀ k t, memLookup s.mem k = some t → t.length = 512)
    (hal_frame : frame % 4096 = 0)
    (hpath : pathOk s v = true)
    (hdist : pathDistinct s v = true)
    (hfresh : ∀ f ∈ s.pool, memLookup s.mem f = none)
    (hal : ∀ f ∈ s.pool, f % 4096 = 0)
    (hnodup : s.pool.Nodup) :
    ((mapSv39 s v frame r fl).2 = .err .AlreadyMapped ↔
      alreadyMappedCond s v = true) ∧
    ((mapSv39 s v frame r fl).2 = .err .OutOfMemory ↔ oomCond s v = true) ∧
    (mapSv39 s v frame r fl).1.flushes = s.flushes ∧
    ((mapSv39 s v frame r fl).2 = .err .OutOfMemory →
      (mapSv39 s v frame r fl).1 = s ∨
      ∃ f1, s.pool = [f1] ∧ (mapSv39 s v frame r fl).1 =
        { s with
            root := s.root.set (vpn_sv39 v).1 (entry_set_present
              (entry_set_address (s.root.getD (vpn_sv39 v).1 0) f1)),
            mem := (f1, Table.empty) :: s.mem,
            pool := [] }) ∧
    ((mapSv39 s v frame r fl).2 = .ok →
      ∃ e0, readLevel0 (mapSv39 s v frame r fl).1 v = some e0 ∧
        getBit e0 2 = r.read ∧ getBit e0 4 = r.write ∧
        getBit e0 8 = r.execute ∧ getBit e0 16 = r.user ∧
        getBit e0 32 = fl.global ∧ entry_present e0 = true ∧
        entry_address e0 = frame) := by
  cases hl2 : entry_is_leaf (s.root.getD (vpn_sv39 v).1 0) with
  | true =>
      have hAM : alreadyMappedCond s v = true := by
        simp only [alreadyMappedCond, hl2, Bool.true_or]
      have hOOM : oomCond s v = false := by
        simp only [oomCond, hl2, Bool.not_true, Bool.false_and]
      rw [mapSv39_leaf2 s v frame r fl hl2]
      exact ⟨iff_of_true rfl hAM,
        iff_of_false (by simp) (by rw [hOOM]; exact Bool.false_ne_true),
        rfl, fun h => absurd h (by simp), fun h => absurd h (by simp)⟩
  | false =>
  cases hp2 : entry_present (s.root.getD (vpn_sv39 v).1 0) with
  | true =>
      cases hlook1 : memLookup s.mem
          (entry_address (s.root.getD (vpn_sv39 v).1 0)) with
      | none =>
          simp only [pathOk, hp2, hl2, hlook1, Bool.not_false, Bool.and_self,
            reduceIte, Bool.false_eq_true] at hpath
      | some t1 =>
      cases hl1 : entry_is_leaf (t1.getD (vpn_sv39 v).2.1 0) with
      | true =>
          have hAM : alreadyMappedCond s v = true := by
            simp only [alreadyMappedCond, hl2, hp2, hlook1, hl1, Bool.false_or,
              Bool.true_and, Bool.true_or]
          have hOOM : oomCond s v = false := by
            simp only [oomCond, hl2, hp2, hlook1, hl1, Bool.not_false,
              Bool.true_and, Bool.not_true, Bool.false_and, reduceIte]
          rw [mapSv39_leaf1 s v frame r fl t1 hl2 hp2 hlook1 hl1]
          exact ⟨iff_of_true rfl hAM,
            iff_of_false (by simp) (by rw [hOOM]; exact Bool.false_ne_true),
            rfl, fun h => absurd h (by simp), fun h => absurd h (by simp)⟩
      | false =>
      cases hp1 : entry_present (t1.getD (vpn_sv39 v).2.1 0) with
      | true =>
          cases hlook0 : memLookup s.mem
              (entry_address (t1.getD (vpn_sv39 v).2.1 0)) with
          | none =>
              simp only [pathOk, hp2, hl2, hl1, hp1, hlook1, hlook0,
                Bool.not_false, Bool.and_self, reduceIte, Option.isSome_none,
                Bool.false_eq_true] at hpath
          | some t0 =>
          have hOOM : oomCond s v = false := by
            simp only [oomCond, hl2, hp2, hlook1, hl1, hp1, Bool.not_false,
              Bool.not_true, Bool.true_and, Bool.false_and, reduceIte]
          cases he0 : entry_present (t0.getD (vpn_sv39 v).2.2 0) with
          | true =>
              have hAM : alreadyMappedCond s v = true := by
                simp only [alreadyMappedCond, hl2, hp2, hlook1, hl1, hp1,
                  hlook0, he0, Bool.false_or, Bool.true_and]
              rw [mapSv39_l0_present s v frame r fl t1 t0 hl2 hp2 hlook1 hl1
                hp1 hlook0 he0]
              exact ⟨iff_of_true rfl hAM,
                iff_of_false (by simp)
                  (by rw [hOOM]; exact Bool.false_ne_true),
                rfl, fun h => absurd h (by simp), fun h => absurd h (by simp)⟩
          | false =>
              have hAM : alreadyMappedCond s v = false := by
                simp only [alreadyMappedCond, hl2, hp2, hlook1, hl1, hp1,
                  hlook0, he0, Bool.false_or, Bool.true_and, Bool.and_false]
              have hdistv : entry_address (t1.getD (vpn_sv39 v).2.1 0) ≠
                  entry_address (s.root.getD (vpn_sv39 v).1 0) := by
                simpa only [pathDistinct, hl2, hp2, hlook1, hl1, hp1,
                  Bool.not_false, Bool.and_self, reduceIte,
                  decide_eq_true_eq] using hdist
              have hrl := readLevel0_after_c s v frame r fl t1 t0 hl2 hp2
                hlook1 hl1 hp1 hlook0 he0 hdistv (hmemWf _ _ hlook0)
              rw [mapSv39_l0_write s v frame r fl t1 t0 hl2 hp2 hlook1 hl1
                hp1 hlook0 he0] at hrl ⊢
              exact ⟨iff_of_false (by simp)
                  (by rw [hAM]; exact Bool.false_ne_true),
                iff_of_false (by simp)
                  (by rw [hOOM]; exact Bool.false_ne_true),
                rfl, fun h => absurd h (by simp),
                fun _ => ⟨mapLeafEntry (t0.getD (vpn_sv39 v).2.2 0) frame r fl,
                  hrl,
                  mapLeafEntry_read _ _ _ _, mapLeafEntry_write _ _ _ _,
                  mapLeafEntry_execute _ _ _ _, mapLeafEntry_user _ _ _ _,
                  mapLeafEntry_global _ _ _ _, mapLeafEntry_present _ _ _ _,
                  mapLeafEntry_address _ _ _ _ hal_frame⟩⟩
      | false =>
          have hAM : alreadyMappedCond s v = false := by
            simp only [alreadyMappedCond, hl2, hp2, hlook1, hl1, hp1,
              Bool.false_or, Bool.true_and, Bool.false_and]
          cases hpool : s.pool with
          | nil =>
              have hOOM : oomCond s v = true := by
                simp only [oomCond, hl2, hp2, hlook1, hl1, hp1, hpool,
                  Bool.not_false, Bool.true_and, poolLen_nil_zero,
                  Bool.and_true, reduceIte]
              rw [mapSv39_oom1 s v frame r fl t1 hl2 hp2 hlook1 hl1 hp1 hpool]
              exact ⟨iff_of_false (by simp)
                  (by rw [hAM]; exact Bool.false_ne_true),
                iff_of_true rfl hOOM, rfl, fun _ => Or.inl rfl,
                fun h => absurd h (by simp)⟩
          | cons f1 rest =>
              have hf1 : f1 ∈ s.pool := by
                rw [hpool]; exact List.mem_cons_self _ _
              have hfr : f1 ≠ entry_address (s.root.getD (vpn_sv39 v).1 0) := by
                intro h
                have := hfresh f1 hf1
                rw [h, hlook1] at this
                cases this
              have hOOM : oomCond s v = false := by
                simp only [oomCond, hl2, hp2, hlook1, hl1, hp1, hpool,
                  Bool.not_false, Bool.true_and, poolLen_cons_zero,
                  Bool.and_false, reduceIte]
              have hrl := readLevel0_after_b s v frame r fl t1 f1 rest hl2
                hp2 hlook1 hl1 hp1 hpool hfr (hal f1 hf1) (hmemWf _ _ hlook1)
              rw [mapSv39_alloc1 s v frame r fl t1 f1 rest hl2 hp2 hlook1 hl1
                hp1 hpool hfr] at hrl ⊢
              exact ⟨iff_of_false (by simp)
                  (by rw [hAM]; exact Bool.false_ne_true),
                iff_of_false (by simp)
                  (by rw [hOOM]; exact Bool.false_ne_true),
                rfl, fun h => absurd h (by simp),
                fun _ => ⟨mapLeafEntry 0 frame r fl,
                  hrl,
                  mapLeafEntry_read _ _ _ _, mapLeafEntry_write _ _ _ _,
                  mapLeafEntry_execute _ _ _ _, mapLeafEntry_user _ _ _ _,
                  mapLeafEntry_global _ _ _ _, mapLeafEntry_present _ _ _ _,
                  mapLeafEntry_address _ _ _ _ hal_frame⟩⟩
  | false =>
      have hAM : alreadyMappedCond s v = false := by
        simp only [alreadyMappedCond, hl2, hp2, Bool.false_and, Bool.false_or]
      cases hpool : s.pool with
      | nil =>
          have hOOM : oomCond s v = true := by
            simp only [oomCond, hl2, hp2, hpool, Bool.not_false, Bool.true_and,
              Bool.false_eq_true, reduceIte, poolLen_nil_or]
          rw [mapSv39_oom2 s v frame r fl hl2 hp2 hpool]
          exact ⟨iff_of_false (by simp)
              (by rw [hAM]; exact Bool.false_ne_true),
            iff_of_true rfl hOOM, rfl, fun _ => Or.inl rfl,
            fun h => absurd h (by simp)⟩
      | cons f1 rest1 =>
      cases rest1 with
      | nil =>
          have hOOM : oomCond s v = true := by
            simp only [oomCond, hl2, hp2, hpool, Bool.not_false, Bool.true_and,
              Bool.false_eq_true, reduceIte, poolLen_one_or]
          rw [mapSv39_oom2_install s v frame r fl f1 hl2 hp2 hpool]
          exact ⟨iff_of_false (by simp)
              (by rw [hAM]; exact Bool.false_ne_true),
            iff_of_true rfl hOOM, rfl,
            fun _ => Or.inr ⟨f1, rfl, rfl⟩,
            fun h => absurd h (by simp)⟩
      | cons f2 rest =>
          have hne : f2 ≠ f1 := by
            rw [hpool, List.nodup_cons] at hnodup
            intro h
            exact hnodup.1 (by rw [h]; exact List.mem_cons_self _ _)
          have hf1 : f1 ∈ s.pool := by
            rw [hpool]; exact List.mem_cons_self _ _
          have hf2 : f2 ∈ s.pool := by
            rw [hpool]; exact List.mem_cons_of_mem _ (List.mem_cons_self _ _)
          have hOOM : oomCond s v = false := by
            simp only [oomCond, hl2, hp2, hpool, Bool.not_false, Bool.true_and,
              Bool.false_eq_true, reduceIte, poolLen_cons2_or]
          have hrl := readLevel0_after_a s v frame r fl f1 f2 rest hl2 hp2
            hpool hne (hal f1 hf1) (hal f2 hf2) hroot
          rw [mapSv39_alloc2 s v frame r fl f1 f2 rest hl2 hp2 hpool hne]
            at hrl ⊢
          exact ⟨iff_of_false (by simp)
              (by rw [hAM]; exact Bool.false_ne_true),
            iff_of_false (by simp)
              (by rw [hOOM]; exact Bool.false_ne_true),
            rfl, fun h => absurd h (by simp),
            fun _ => ⟨mapLeafEntry 0 frame r fl,
              hrl,
              mapLeafEntry_read _ _ _ _, mapLeafEntry_write _ _ _ _,
              mapLeafEntry_execute _ _ _ _, mapLeafEntry_user _ _ _ _,
              mapLeafEntry_global _ _ _ _, mapLeafEntry_present _ _ _ _,
              mapLeafEntry_address _ _ _ _ hal_frame⟩⟩


theorem C3_map_unmap_roundtrip_witness :
    walkClearCond c34State 0x1000 = true ∧
    (mapSv39 c34State 0x1000 0x80200000 c34Rights c34Flags).2 = .ok ∧
    unmapSv39 (mapSv39 c34State 0x1000 0x80200000 c34Rights c34Flags).1
        0x1000 =
      ({ roundTripExpected c34State 0x1000 with
          flushes := 0x1000 :: c34State.flushes }, .ok 0x80200000) :=
  ⟨by decide, by decide,
    C3_map_unmap_roundtrip c34State 0x1000 0x80200000 c34Rights c34Flags
      (by decide) (fun _ _ h => Option.noConfusion h) (by decide) (by decide)
      (by decide) (by decide) (fun f _ => rfl) (by decide) (by decide)
      (by decide) (by decide)⟩

theorem C4_map_error_conditions_witness :
    pathOk c34State 0x1000 = true ∧
    (((mapSv39 c34State 0x1000 0x80200000 c34Rights c34Flags).2 =
        .err .AlreadyMapped ↔ alreadyMappedCond c34State 0x1000 = true) ∧
      ((mapSv39 c34State 0x1000 0x80200000 c34Rights c34Flags).2 =
        .err .OutOfMemory ↔ oomCond c34State 0x1000 = true) ∧
      (mapSv39 c34State 0x1000 0x80200000 c34Rights c34Flags).1.flushes =
        c34State.flushes ∧
      ((mapSv39 c34State 0x1000 0x80200000 c34Rights c34Flags).2 =
          .err .OutOfMemory →
        (mapSv39 c34State 0x1000 0x80200000 c34Rights c34Flags).1 =
          c34State ∨
        ∃ f1, c34State.pool = [f1] ∧
          (mapSv39 c34State 0x1000 0x80200000 c34Rights c34Flags).1 =
          { c34State with
              root := c34State.root.set (vpn_sv39 0x1000).1
                (entry_set_present (entry_set_address
                  (c34State.root.getD (vpn_sv39 0x1000).1 0) f1)),
              mem := (f1, Table.empty) :: c34State.mem,
              pool := [] }) ∧
      ((mapSv39 c34State 0x1000 0x80200000 c34Rights c34Flags).2 = .ok →
        ∃ e0, readLevel0
            (mapSv39 c34State 0x1000 0x80200000 c34Rights c34Flags).1
            0x1000 = some e0 ∧
          getBit e0 2 = c34Rights.read ∧ getBit e0 4 = c34Rights.write ∧
          getBit e0 8 = c34Rights.execute ∧ getBit e0 16 = c34Rights.user ∧
          getBit e0 32 = c34Flags.global ∧ entry_present e0 = true ∧
          entry_address e0 = 0x80200000)) :=
  ⟨by decide,
    C4_map_error_conditions c34State 0x1000 0x80200000 c34Rights c34Flags
      (by decide) (fun _ _ h => Option.noConfusion h) (by decide) (by decide)
      (by decide) (fun f _ => rfl) (by decide) (by decide)⟩

/-- C3, counterexample to the unqualified claim: mapping with empty
rights succeeds, but the written level-0 entry has no R/W/X bit and is
therefore not a leaf, so the subsequent unmap trips its level-0
`assert!(entry.is_leaf())` instead of returning the frame. -/
theorem C3_counterexample :
    (mapSv39 c34State 0x1000 0x80200000 ⟨false, false, false, false⟩
      c34Flags).2 = .ok ∧
    (unmapSv39 (mapSv39 c34State 0x1000 0x80200000 ⟨false, false, false, false⟩
      c34Flags).1 0x1000).2 = .panicked := by
  decide


end Kiwi
